import Mathlib

/-!
Verification of the melanoma-statistics CRUD backend.

This file shallowly embeds the pure content of the repository's code:

* `src/app/crud/crud_skin_cancer.py` — the filtered aggregation query builder
  (`_apply_filters`, `count_filtered`, `get_grouped_data`,
  `_format_grouped_data`).  The database is modelled as a `List SkinCancerData`
  and a SQL `GROUP BY` + `SUM` execution is modelled explicitly; since the
  query has no `ORDER BY`, the model fixes one admissible row order
  (first-occurrence order of each group key).
* `src/app/services/weather.py` — `get_weather_data` (with the external HTTP
  fetch and the reverse-geocode call abstracted as `Except` inputs) and the
  BOM map-URL builders.
* `src/app/api/v1/weather.py` — the `get_weather` persistence pipeline, the
  map endpoints' display-name mapping and the `proxy_image` URL
  normalization.

Python exceptions are modelled with `Except`; Python `dict` insertion
(update-in-place if the key is present, append otherwise) is modelled by
`dinsert` on association lists.
-/

namespace Onboarding

/-- A database cell value: the statistics columns are strings or integers. -/
inductive Val where
  | s (v : String)
  | i (v : Int)
deriving DecidableEq, Repr

/-- `DataTypeEnum` from `schemas/skin_cancer.py`. -/
inductive DataTypeEnum where
  | ACTUAL
  | PROJECTIONS
deriving DecidableEq, Repr

def DataTypeEnum.val : DataTypeEnum → String
  | .ACTUAL => "Actual"
  | .PROJECTIONS => "Projections"

/-- `SexEnum` from `schemas/skin_cancer.py`. -/
inductive SexEnum where
  | FEMALES
  | MALES
  | PERSONS
deriving DecidableEq, Repr

def SexEnum.val : SexEnum → String
  | .FEMALES => "Females"
  | .MALES => "Males"
  | .PERSONS => "Persons"

/-- `AgeGroupEnum` from `schemas/skin_cancer.py` (20 fixed bucket labels). -/
inductive AgeGroupEnum where
  | AGE_00_04 | AGE_05_09 | AGE_10_14 | AGE_15_19 | AGE_20_24
  | AGE_25_29 | AGE_30_34 | AGE_35_39 | AGE_40_44 | AGE_45_49
  | AGE_50_54 | AGE_55_59 | AGE_60_64 | AGE_65_69 | AGE_70_74
  | AGE_75_79 | AGE_80_84 | AGE_85_89 | AGE_90_PLUS | ALL_AGES
deriving DecidableEq, Repr

def AgeGroupEnum.val : AgeGroupEnum → String
  | .AGE_00_04 => "00-04"
  | .AGE_05_09 => "05-09"
  | .AGE_10_14 => "10-14"
  | .AGE_15_19 => "15-19"
  | .AGE_20_24 => "20-24"
  | .AGE_25_29 => "25-29"
  | .AGE_30_34 => "30-34"
  | .AGE_35_39 => "35-39"
  | .AGE_40_44 => "40-44"
  | .AGE_45_49 => "45-49"
  | .AGE_50_54 => "50-54"
  | .AGE_55_59 => "55-59"
  | .AGE_60_64 => "60-64"
  | .AGE_65_69 => "65-69"
  | .AGE_70_74 => "70-74"
  | .AGE_75_79 => "75-79"
  | .AGE_80_84 => "80-84"
  | .AGE_85_89 => "85-89"
  | .AGE_90_PLUS => "90+"
  | .ALL_AGES => "All ages combined"

/-- One persisted row of `models/skin_cancer_data.py` (the columns the
queries touch; id/timestamps are never read by the aggregation code). -/
structure SkinCancerData where
  data_type : String
  cancer_group : String
  year : Int
  sex : String
  age_group : String
  count : Int
deriving DecidableEq, Repr

/-- `SkinCancerFilter` from `schemas/skin_cancer.py`: four optional,
enum-constrained (`year`: plain optional int) equality filters. -/
structure SkinCancerFilter where
  data_type : Option DataTypeEnum
  year : Option Int
  sex : Option SexEnum
  age_group : Option AgeGroupEnum
deriving DecidableEq, Repr

/-- The predicate list built by `CRUDSkinCancer._apply_filters`
(`crud_skin_cancer.py:105-132`).  Each optional field is guarded by Python
truthiness (`if filters.year:`): a string is truthy iff non-empty, an int is
truthy iff non-zero. -/
def filterConditions (filters : SkinCancerFilter) : List (SkinCancerData → Bool) :=
  let c0 := [fun r : SkinCancerData => r.cancer_group == "Melanoma of the skin"]
  let c1 := match filters.data_type with
    | some dt => if dt.val == "" then [] else [fun r : SkinCancerData => r.data_type == dt.val]
    | none => []
  let c2 := match filters.year with
    | some y => if y == 0 then [] else [fun r : SkinCancerData => r.year == y]
    | none => []
  let c3 := match filters.sex with
    | some sx => if sx.val == "" then [] else [fun r : SkinCancerData => r.sex == sx.val]
    | none => []
  let c4 := match filters.age_group with
    | some ag => if ag.val == "" then [] else [fun r : SkinCancerData => r.age_group == ag.val]
    | none => []
  c0 ++ c1 ++ c2 ++ c3 ++ c4

/-- Whether a record satisfies the `AND` of all conditions `_apply_filters`
puts on the query.  (`query.where(and_(*filter_conditions))`.) -/
def matchesFilters (filters : SkinCancerFilter) (r : SkinCancerData) : Bool :=
  (filterConditions filters).all (fun c => c r)

/-- `CRUDSkinCancer.count_filtered`: `SELECT COUNT(*)` with the filters
applied — the number of matching rows. -/
def count_filtered (records : List SkinCancerData) (filters : SkinCancerFilter) : Nat :=
  (records.filter (matchesFilters filters)).length

/-- Python exception kinds the grouped-data path can raise. -/
inductive CrudError where
  | valueError (msg : String)
  | attributeError (name : String)
deriving DecidableEq, Repr

/-- Python-`dict` insertion on an association list: update in place if the
key is present (keeping its position), append otherwise. -/
def dinsert {α β : Type} [DecidableEq α] : List (α × β) → α → β → List (α × β)
  | [], k, v => [(k, v)]
  | (k₀, v₀) :: rest, k, v =>
      if k₀ = k then (k, v) :: rest else (k₀, v₀) :: dinsert rest k v

/-- A query-result row: column label → value (SQLAlchemy `Row`). -/
abbrev Row := List (String × Val)

/-- `getattr(row, name)`: raises `AttributeError` when the label is absent. -/
def getattrRow (row : Row) (name : String) : Except CrudError Val :=
  match row.lookup name with
  | some v => .ok v
  | none => .error (.attributeError name)

/-- The Python loop `for n in names: d[n] = getattr(row, n)` over a dict,
threading the possible `AttributeError`. -/
def buildNameDict (row : Row) : List String → List (String × Val) →
    Except CrudError (List (String × Val))
  | [], acc => .ok acc
  | n :: ns, acc => do
      let v ← getattrRow row n
      buildNameDict row ns (dinsert acc n v)

/-- The one-field branch of `_format_grouped_data` (`crud_skin_cancer.py:150-160`):
`result[field][key] = {}` then the metric loop, over each row in order. -/
def format1 (field : String) (metrics : List String) :
    List Row → List (Val × List (String × Val)) →
    Except CrudError (List (Val × List (String × Val)))
  | [], acc => .ok acc
  | row :: rest, acc => do
      let key ← getattrRow row field
      let md ← buildNameDict row metrics []
      format1 field metrics rest (dinsert acc key md)

/-- The two-field branch of `_format_grouped_data` (`crud_skin_cancer.py:162-179`):
create the `key1` bucket if absent, then `result[l][key1][key2] = {metrics}`. -/
def format2 (field1 field2 : String) (metrics : List String) :
    List Row → List (Val × List (Val × List (String × Val))) →
    Except CrudError (List (Val × List (Val × List (String × Val))))
  | [], acc => .ok acc
  | row :: rest, acc => do
      let key1 ← getattrRow row field1
      let key2 ← getattrRow row field2
      let inner := (acc.lookup key1).getD []
      let md ← buildNameDict row metrics []
      format2 field1 field2 metrics rest (dinsert acc key1 (dinsert inner key2 md))

/-- One item of the `>2`-fields branch: group-by values then metrics into a
fresh dict. -/
def buildItem (row : Row) (group_by metrics : List String) :
    Except CrudError (List (String × Val)) := do
  let d ← buildNameDict row group_by []
  buildNameDict row metrics d

/-- The `>2`-fields branch of `_format_grouped_data`
(`crud_skin_cancer.py:180-193`): one flat record per row, appended in row
order. -/
def formatN (group_by metrics : List String) :
    List Row → Except CrudError (List (List (String × Val)))
  | [] => .ok []
  | row :: rest => do
      let item ← buildItem row group_by metrics
      let tail ← formatN group_by metrics rest
      return item :: tail

/-- The shape-polymorphic result of `_format_grouped_data`: the Python dict
has exactly one top-level key per branch, modelled as a tagged variant. -/
inductive GData where
  | oneField (field : String) (m : List (Val × List (String × Val)))
  | twoField (label : String) (m : List (Val × List (Val × List (String × Val))))
  | manyField (data : List (List (String × Val)))
deriving DecidableEq, Repr

/-- `CRUDSkinCancer._format_grouped_data`: dispatch on `len(group_by)`
(`== 1`, `== 2`, else). -/
def format_grouped_data (rows : List Row) (group_by metrics : List String) :
    Except CrudError GData :=
  match group_by with
  | [field] => do
      let m ← format1 field metrics rows []
      return .oneField field m
  | [field1, field2] => do
      let m ← format2 field1 field2 metrics rows []
      return .twoField (field1 ++ "_" ++ field2) m
  | _ => do
      let d ← formatN group_by metrics rows
      return .manyField d

/-- The fixed `valid_fields` list of `get_grouped_data`
(`crud_skin_cancer.py:71-76`). -/
def valid_fields : List String := ["data_type", "year", "sex", "age_group"]

/-- Step 1 of `get_grouped_data` (`crud_skin_cancer.py:77`):
`[field for field in group_by if field in valid_fields]`. -/
def validateGroupBy (group_by : List String) : List String :=
  group_by.filter (fun field => valid_fields.contains field)

/-- `getattr(self.model, field)` evaluated on a record, for the four valid
columns.  (Only ever applied to validated field names.) -/
def fieldVal (r : SkinCancerData) (field : String) : Val :=
  if field == "data_type" then .s r.data_type
  else if field == "year" then .i r.year
  else if field == "sex" then .s r.sex
  else if field == "age_group" then .s r.age_group
  else .s ""

/-- The `GROUP BY` key of a record: the tuple of its validated group-by
column values, in order. -/
def keyOf (group_by : List String) (r : SkinCancerData) : List Val :=
  group_by.map (fieldVal r)

/-- The distinct group keys of a record list, in order of first occurrence
(one admissible `GROUP BY` output order; the query has no `ORDER BY`). -/
def firstKeys (group_by : List String) :
    List SkinCancerData → List (List Val) → List (List Val)
  | [], _ => []
  | r :: rest, seen =>
      let k := keyOf group_by r
      if k ∈ seen then firstKeys group_by rest seen
      else k :: firstKeys group_by rest (k :: seen)

def groupKeys (group_by : List String) (records : List SkinCancerData) : List (List Val) :=
  firstKeys group_by records []

/-- `SUM(count)` over the records of one group. -/
def sumCountsFor (group_by : List String) (k : List Val)
    (records : List SkinCancerData) : Int :=
  ((records.filter (fun r => keyOf group_by r == k)).map (fun r => r.count)).sum

/-- One result row of the grouped query: the group-by columns followed by,
for each requested metric equal to `"count"`, the summed count labelled
`"count"` (`crud_skin_cancer.py:82-95`). -/
def mkGroupRow (group_by metrics : List String) (records : List SkinCancerData)
    (k : List Val) : Row :=
  group_by.zip k ++
    metrics.filterMap (fun metric =>
      if metric == "count" then some ("count", Val.i (sumCountsFor group_by k records))
      else none)

/-- Execution of the built `SELECT … GROUP BY …` query over the record
store: one row per distinct group key of the filtered records. -/
def runGroupedQuery (group_by metrics : List String)
    (records : List SkinCancerData) : List Row :=
  (groupKeys group_by records).map (mkGroupRow group_by metrics records)

/-- `CRUDSkinCancer.get_grouped_data` (`crud_skin_cancer.py:51-103`):
validate the group-by list, raise `ValueError` when nothing valid remains,
otherwise run the filtered grouped query and reshape. -/
def get_grouped_data (records : List SkinCancerData) (filters : SkinCancerFilter)
    (group_by : List String) (metrics : List String) : Except CrudError GData :=
  let gb := validateGroupBy group_by
  if gb.isEmpty then
    .error (.valueError "At least one valid field must be specified for grouping")
  else
    let filtered := records.filter (matchesFilters filters)
    let rows := runGroupedQuery gb metrics filtered
    format_grouped_data rows gb metrics

/-! ### Weather service (`services/weather.py`) -/

/-- The formatted snapshot `WeatherService.get_weather_data` returns
(`weather.py:81-92`); the opaque `current` payload and the timestamp are
carried as strings, coordinates as integers (their numeric value is never
computed with). -/
structure WeatherSnapshot where
  location_name : String
  location_address : String
  lat : Int
  lon : Int
  country : String
  city : String
  current : String
  timestamp : String
deriving DecidableEq, Repr

/-- Python `dict.get(key, default)` on a string-valued dict. -/
def dictGet (d : List (String × String)) (key dflt : String) : String :=
  (d.lookup key).getD dflt

/-- The fallback `location_info` built when the reverse-geocode call raises
(`weather.py:72-78`).  Its numeric `lat`/`lng` entries are never read by the
formatting step (which uses the `lat`/`lon` arguments directly) and are
omitted here. -/
def fallback_location_info : List (String × String) :=
  [("city", "Unknown"), ("country", "Unknown"), ("formatted_address", "Unknown")]

/-- `WeatherService.get_weather_data` (`weather.py:35-95`), with the two
external calls abstracted: `fetch` is the outcome of the OpenWeatherMap
request (its `current` payload on success, an `httpx` error otherwise) and
`geocode` the outcome of `google_maps_service.reverse_geocode` (the result
dict on success).  A geocode failure is swallowed and replaced by the
fallback dict; a fetch failure is re-raised as `ValueError`. -/
def get_weather_data (api_key : Option String) (lat lon : Int)
    (fetch : Except String String)
    (geocode : Except String (List (String × String)))
    (now : String) : Except String WeatherSnapshot :=
  if api_key.getD "" == "" then
    .error "OpenWeatherMap API key is not configured"
  else
    match fetch with
    | .error e => .error ("Error fetching weather data: " ++ e)
    | .ok current =>
        let location_info :=
          match geocode with
          | .ok info => info
          | .error _ => fallback_location_info
        .ok { location_name := dictGet location_info "formatted_address" "Unknown"
              location_address := dictGet location_info "formatted_address" "Unknown"
              lat := lat
              lon := lon
              country := dictGet location_info "country" "Unknown"
              city := dictGet location_info "city" "Unknown"
              current := current
              timestamp := now }

/-- Python `str.lower()` (ASCII). -/
def pyLower (s : String) : String := String.mk (s.data.map Char.toLower)

/-- Python `str.upper()` (ASCII). -/
def pyUpper (s : String) : String := String.mk (s.data.map Char.toUpper)

/-- Python `str.startswith(pre)`. -/
def strStartsWith (s pre : String) : Bool := pre.data.isPrefixOf s.data

/-- Python `str.capitalize()`: first character uppercased, the rest
lowercased. -/
def pyCapitalize (s : String) : String :=
  match s.data with
  | [] => ""
  | c :: rest => String.mk (c.toUpper :: rest.map Char.toLower)

def bom_uv_base_url : String :=
  "http://www.bom.gov.au/climate/maps/averages/uv-index/maps"

def bom_temp_base_url : String :=
  "http://www.bom.gov.au/climate/maps/averages/temperature/maps"

/-- `period_map` of `get_uv_index_heatmap_url` (`weather.py:110-124`). -/
def uv_period_map : List (String × String) :=
  [("annual", "uv-an.png"), ("jan", "uv-jan.png"), ("feb", "uv-feb.png"),
   ("mar", "uv-mar.png"), ("apr", "uv-apr.png"), ("may", "uv-may.png"),
   ("jun", "uv-jun.png"), ("jul", "uv-jul.png"), ("aug", "uv-aug.png"),
   ("sep", "uv-sep.png"), ("oct", "uv-oct.png"), ("nov", "uv-nov.png"),
   ("dec", "uv-dec.png")]

/-- `WeatherService.get_uv_index_heatmap_url` (`weather.py:97-132`):
`ValueError` when the lowercased period is not a map key. -/
def get_uv_index_heatmap_url (period : String) : Except String String :=
  match uv_period_map.lookup (pyLower period) with
  | none => .error ("Invalid period: " ++ period ++
      ". Must be 'annual' or a three-letter month abbreviation.")
  | some suffix => .ok (bom_uv_base_url ++ "/" ++ suffix)

/-- `temp_type_map` of `get_temperature_map_url` (`weather.py:149-153`). -/
def temp_type_map : List (String × String) :=
  [("mean", "mean"), ("max", "mxt"), ("min", "mnt")]

/-- `period_map` of `get_temperature_map_url` (`weather.py:156-170`). -/
def temp_period_map : List (String × String) :=
  [("annual", "an.png"), ("jan", "jan.png"), ("feb", "feb.png"),
   ("mar", "mar.png"), ("apr", "apr.png"), ("may", "may.png"),
   ("jun", "jun.png"), ("jul", "jul.png"), ("aug", "aug.png"),
   ("sep", "sep.png"), ("oct", "oct.png"), ("nov", "nov.png"),
   ("dec", "dec.png")]

/-- The fixed region list of `get_temperature_map_url` (`weather.py:178`). -/
def temp_regions : List String := ["aus", "ns", "nt", "qd", "sa", "ta", "vc", "wa"]

/-- `WeatherService.get_temperature_map_url` (`weather.py:134-189`):
validates `temp_type`, then `region`, then `period` (each lowercased),
raising `ValueError` at the first miss, else builds the static image URL. -/
def get_temperature_map_url (temp_type region period : String) :
    Except String String :=
  match temp_type_map.lookup (pyLower temp_type) with
  | none => .error ("Invalid temperature type: " ++ temp_type ++
      ". Must be 'mean', 'max', or 'min'.")
  | some t =>
      if temp_regions.contains (pyLower region) then
        match temp_period_map.lookup (pyLower period) with
        | none => .error ("Invalid period: " ++ period ++
            ". Must be 'annual' or a three-letter month abbreviation.")
        | some p =>
            .ok (bom_temp_base_url ++ "/" ++ t ++ "/" ++ pyLower region ++ "/" ++
              t ++ pyLower region ++ p)
      else
        .error ("Invalid region: " ++ region ++
          ". Must be 'aus', 'ns', 'nt', 'qd', 'sa', 'ta', 'vc', or 'wa'.")

/-! ### Weather API endpoints (`api/v1/weather.py`) -/

/-- Response model of the UV heatmap endpoint. -/
structure UVIndexHeatmapResponse where
  url : String
  period : String
deriving DecidableEq, Repr

/-- `period_display` of both map endpoints (`weather.py:216-230, 326-340`). -/
def period_display : List (String × String) :=
  [("annual", "Annual"), ("jan", "January"), ("feb", "February"),
   ("mar", "March"), ("apr", "April"), ("may", "May"), ("jun", "June"),
   ("jul", "July"), ("aug", "August"), ("sep", "September"),
   ("oct", "October"), ("nov", "November"), ("dec", "December")]

/-- `get_uv_index_heatmap` endpoint (`api/v1/weather.py:188-248`): build the
service URL (propagating its `ValueError` as a 400), wrap it in the
proxy-image URL, and map the raw period to a display name with a
`capitalize` fallback. -/
def get_uv_index_heatmap (period : String) : Except String UVIndexHeatmapResponse :=
  match get_uv_index_heatmap_url period with
  | .error e => .error e
  | .ok original_url =>
      .ok { url := "/api/v1/weather/proxy-image" ++ "?url=" ++ original_url
            period := (period_display.lookup period).getD (pyCapitalize period) }

/-- Response model of the temperature-map endpoint. -/
structure TemperatureMapResponse where
  url : String
  temp_type : String
  region : String
  period : String
deriving DecidableEq, Repr

/-- `temp_type_display` (`api/v1/weather.py:307-311`). -/
def temp_type_display : List (String × String) :=
  [("mean", "Mean Temperature"), ("max", "Maximum Temperature"),
   ("min", "Minimum Temperature")]

/-- `region_display` (`api/v1/weather.py:314-323`). -/
def region_display : List (String × String) :=
  [("aus", "Australia"), ("ns", "New South Wales"), ("nt", "Northern Territory"),
   ("qd", "Queensland"), ("sa", "South Australia"), ("ta", "Tasmania"),
   ("vc", "Victoria"), ("wa", "Western Australia")]

/-- `get_temperature_map` endpoint (`api/v1/weather.py:268-360`): the
service URL builder runs first (its `ValueError` becomes a 400 failure);
only then are the display names mapped, falling back to `capitalize`
(`upper` for the region) on a missed raw key. -/
def get_temperature_map (temp_type region period : String) :
    Except String TemperatureMapResponse :=
  match get_temperature_map_url temp_type region period with
  | .error e => .error e
  | .ok original_url =>
      .ok { url := "/api/v1/weather/proxy-image" ++ "?url=" ++ original_url
            temp_type := (temp_type_display.lookup temp_type).getD (pyCapitalize temp_type)
            region := (region_display.lookup region).getD (pyUpper region)
            period := (period_display.lookup period).getD (pyCapitalize period) }

/-! ### Weather persistence pipeline (`api/v1/weather.py:39-120`) -/

/-- Abstract relational state touched by the persistence block: row counts
of the four written tables. -/
structure DbState where
  users : Nat
  locations : Nat
  temperature_records : Nat
  uv_records : Nat
deriving DecidableEq, Repr

/-- Run one fallible persistence step; on failure, remember the state the
database had when the exception was raised. -/
def runStep (step : DbState → Except String DbState) (db : DbState) :
    Except (String × DbState) DbState :=
  match step db with
  | .ok db2 => .ok db2
  | .error e => .error (e, db)

/-- The `try` block of `get_weather` after the fetch
(`api/v1/weather.py:63-100`): get-or-create user, get-or-create location,
insert a temperature record, insert a UV record — sequentially, stopping at
the first raised exception. -/
def saveWeatherBlock (stepUser stepLocation stepTemperature stepUv :
    DbState → Except String DbState) (db : DbState) :
    Except (String × DbState) DbState := do
  let db ← runStep stepUser db
  let db ← runStep stepLocation db
  let db ← runStep stepTemperature db
  let db ← runStep stepUv db
  return db

/-- `get_weather` endpoint (`api/v1/weather.py:39-120`): if the fetch
raised, propagate; otherwise run the persistence block under
`except Exception: pass`-style suppression (the error is logged and the
snapshot returned regardless). -/
def get_weather (weather_data : Except String WeatherSnapshot) (db : DbState)
    (stepUser stepLocation stepTemperature stepUv : DbState → Except String DbState) :
    Except String (WeatherSnapshot × DbState) :=
  match weather_data with
  | .error e => .error e
  | .ok w =>
      match saveWeatherBlock stepUser stepLocation stepTemperature stepUv db with
      | .ok db2 => .ok (w, db2)
      | .error (_, dbAt) => .ok (w, dbAt)

/-! ### Image proxy URL normalization (`api/v1/weather.py:127-156`) -/

/-- Hex digit value, as `int(c, 16)` accepts it. -/
def hexVal (c : Char) : Option Nat :=
  if '0' ≤ c ∧ c ≤ '9' then some (c.toNat - '0'.toNat)
  else if 'a' ≤ c ∧ c ≤ 'f' then some (c.toNat - 'a'.toNat + 10)
  else if 'A' ≤ c ∧ c ≤ 'F' then some (c.toNat - 'A'.toNat + 10)
  else none

/-- `urllib.parse.unquote` restricted to single-byte escapes: every valid
`%XX` is replaced by the character with that code, invalid escapes are left
untouched. -/
def unquoteChars : List Char → List Char
  | '%' :: a :: b :: rest =>
      match hexVal a, hexVal b with
      | some x, some y => Char.ofNat (16 * x + y) :: unquoteChars rest
      | _, _ => '%' :: unquoteChars (a :: b :: rest)
  | c :: rest => c :: unquoteChars rest
  | [] => []

def unquote (s : String) : String := String.mk (unquoteChars s.data)

/-- `s.split(sep, 1)[1]` for a non-empty separator: the suffix after the
first occurrence of `sep`, or `none` (an `IndexError`) when `sep` does not
occur. -/
def findAfter (sep : List Char) : List Char → Option (List Char)
  | [] => if sep.isPrefixOf ([] : List Char) then some [] else none
  | c :: rest =>
      if sep.isPrefixOf (c :: rest) then some ((c :: rest).drop sep.length)
      else findAfter sep rest

def splitAfterFirst (sep s : String) : Option String :=
  (findAfter sep.data s.data).map String.mk

/-- The protocol-defaulting step (`api/v1/weather.py:150-151`). -/
def addProtocol (url : String) : String :=
  if strStartsWith url "http://" || strStartsWith url "https://" then url
  else "http://" ++ url

/-- The URL normalization of the `proxy_image` endpoint
(`api/v1/weather.py:143-156`): unwrap one level of nested proxying
(decoding the part after the first `url=`; an absent `url=` is an
`IndexError`), then default the protocol to `http://`.  The result is the
URL the endpoint fetches, with no host restriction. -/
def proxy_image_fetch_url (url : String) : Except String String :=
  let unwrapped : Except String String :=
    if strStartsWith url "/api/v1/weather/proxy-image" then
      match splitAfterFirst "url=" url with
      | some nested => Except.ok (unquote nested)
      | none => Except.error "IndexError: list index out of range"
    else Except.ok url
  match unwrapped with
  | .error e => .error e
  | .ok u =>
      if strStartsWith u "http://" || strStartsWith u "https://" then Except.ok u
      else Except.ok ("http://" ++ u)

/-! ### Pure counterparts of the reshaping loops

Each `…P` function computes what the corresponding `Except`-valued loop
returns when no `AttributeError` occurs (every looked-up label present);
the equivalence is proved below. -/

/-- Pure counterpart of `buildNameDict` (the default is never used when the
row is well-formed). -/
def buildNameDictP (row : Row) : List String → List (String × Val) → List (String × Val)
  | [], acc => acc
  | n :: ns, acc => buildNameDictP row ns (dinsert acc n ((row.lookup n).getD (.s "")))

/-- Pure counterpart of `format1`. -/
def format1P (field : String) (metrics : List String) :
    List Row → List (Val × List (String × Val)) → List (Val × List (String × Val))
  | [], acc => acc
  | row :: rest, acc =>
      format1P field metrics rest
        (dinsert acc ((row.lookup field).getD (.s "")) (buildNameDictP row metrics []))

/-- Pure counterpart of `format2`. -/
def format2P (field1 field2 : String) (metrics : List String) :
    List Row → List (Val × List (Val × List (String × Val))) →
    List (Val × List (Val × List (String × Val)))
  | [], acc => acc
  | row :: rest, acc =>
      let key1 := (row.lookup field1).getD (.s "")
      let key2 := (row.lookup field2).getD (.s "")
      let inner := (acc.lookup key1).getD []
      format2P field1 field2 metrics rest
        (dinsert acc key1 (dinsert inner key2 (buildNameDictP row metrics [])))

/-- Pure counterpart of `buildItem`. -/
def buildItemP (row : Row) (group_by metrics : List String) : List (String × Val) :=
  buildNameDictP row metrics (buildNameDictP row group_by [])

/-- A row is well-formed for a list of labels when each label is present. -/
def rowHasAll (row : Row) (names : List String) : Bool :=
  names.all (fun n => (row.lookup n).isSome)

/-- All rows carry all group-by fields and metrics as labels. -/
def wellFormedRows (rows : List Row) (names : List String) : Bool :=
  rows.all (fun row => rowHasAll row names)

/-! ### Aggregate totals over the reshaped structure -/

/-- The summed `count` metric stored in one leaf metric dict. -/
def metricCount (d : List (String × Val)) : Int :=
  match d.lookup "count" with
  | some (.i n) => n
  | _ => 0

/-- Total of the `count` metric over a one-level nested mapping. -/
def total1 (m : List (Val × List (String × Val))) : Int :=
  (m.map (fun p => metricCount p.2)).sum

/-- Total of the `count` metric over a two-level nested mapping. -/
def total2 (m : List (Val × List (Val × List (String × Val)))) : Int :=
  (m.map (fun p => total1 p.2)).sum

/-- Total of the `count` metric over every group of an `AggregatedResult`. -/
def gdataTotal : GData → Int
  | .oneField _ m => total1 m
  | .twoField _ m => total2 m
  | .manyField data => (data.map metricCount).sum

/-- Total of a grouped-data call, `0` for a raised exception (used only to
state concrete counterexamples). -/
def exceptTotal : Except CrudError GData → Int
  | .ok g => gdataTotal g
  | .error _ => 0

/-- No aggregate entries anywhere: for the nested shapes, every leaf
metric dict is empty; for the flat shape, items carry only group-by
field values. -/
def noMetricEntries (gb : List String) : GData → Prop
  | .oneField _ m => ∀ p ∈ m, p.2 = []
  | .twoField _ m => ∀ p ∈ m, ∀ q ∈ p.2, q.2 = []
  | .manyField data => ∀ item ∈ data, ∀ kv ∈ item, kv.1 ∈ gb

/-- Whether a call completed without raising. -/
def isOkE {ε α : Type} : Except ε α → Bool
  | .ok _ => true
  | .error _ => false

/-- A key/inner-dict pair reachable by `lookup` — the pairs `(v1, v2)`
present in a two-level nested dict. -/
def pairMem (m : List (Val × List (Val × List (String × Val)))) (v1 v2 : Val) : Prop :=
  ∃ inner, m.lookup v1 = some inner ∧ v2 ∈ inner.map Prod.fst

/-! ### Spec-modelled comparison definition for filter application -/

/-- Modelled from the spec: §4.1 says an equality predicate is conjoined
for a field exactly when the FilterSpec field is set (non-null).  This is
the spec's reading of `_apply_filters`, to be compared with
`matchesFilters` (which follows the source's Python truthiness tests). -/
def specApplyFiltersMatches (filters : SkinCancerFilter) (r : SkinCancerData) : Bool :=
  (r.cancer_group == "Melanoma of the skin")
  && (match filters.data_type with
      | some dt => r.data_type == dt.val
      | none => true)
  && (match filters.year with
      | some y => r.year == y
      | none => true)
  && (match filters.sex with
      | some sx => r.sex == sx.val
      | none => true)
  && (match filters.age_group with
      | some ag => r.age_group == ag.val
      | none => true)

/-! ### Concrete fixtures for counterexamples and witnesses -/

/-- One melanoma row with a case count greater than one. -/
def exRecord : SkinCancerData :=
  { data_type := "Actual", cancer_group := "Melanoma of the skin",
    year := 2020, sex := "Males", age_group := "00-04", count := 5 }

/-- A single-record store whose only row has `count = 5`. -/
def exRecords : List SkinCancerData := [exRecord]

/-- A second melanoma row, for the two-group example. -/
def exRecord2 : SkinCancerData :=
  { data_type := "Actual", cancer_group := "Melanoma of the skin",
    year := 2021, sex := "Males", age_group := "00-04", count := 3 }

/-- The spec's §8 two-row fixture `{(2020,Males,5),(2021,Males,3)}`. -/
def exRecordsTwo : List SkinCancerData := [exRecord, exRecord2]

/-- The fully-unset FilterSpec. -/
def filtersNone : SkinCancerFilter := ⟨none, none, none, none⟩

/-- A FilterSpec whose `year` is set (non-null) but zero — falsy in Python. -/
def filtersYearZero : SkinCancerFilter := ⟨none, some 0, none, none⟩

/-- A concrete weather snapshot, for the persistence-pipeline witness. -/
def exSnapshot : WeatherSnapshot :=
  { location_name := "Unknown", location_address := "Unknown", lat := -37, lon := 144,
    country := "Australia", city := "Melbourne", current := "payload", timestamp := "t0" }

/-- An empty abstract database. -/
def exDb : DbState := ⟨0, 0, 0, 0⟩

/-- A persistence step that succeeds and writes nothing (shape only). -/
def okStep : DbState → Except String DbState := fun db => .ok db

/-- The spec's §8 two-row *query-result* fixture for the reshaping step:
rows (2020, Males, 5) and (2021, Males, 3) grouped by year and sex. -/
def exRows2 : List Row :=
  [[("year", .i 2020), ("sex", .s "Males"), ("count", .i 5)],
   [("year", .i 2021), ("sex", .s "Males"), ("count", .i 3)]]

/-! ## Association-list lemmas -/

section AListLemmas

variable {α β : Type} [DecidableEq α]

theorem lookup_cons (k : α) (v : β) (d : List (α × β)) (a : α) :
    ((k, v) :: d).lookup a = if a = k then some v else d.lookup a := by
  simp only [List.lookup]
  by_cases h : a = k
  · simp [h]
  · rw [if_neg h, beq_eq_false_iff_ne.mpr h]

theorem lookup_mem {d : List (α × β)} {a : α} {b : β} (h : d.lookup a = some b) :
    (a, b) ∈ d := by
  induction d with
  | nil => simp [List.lookup] at h
  | cons hd tl ih =>
      obtain ⟨k, v⟩ := hd
      rw [lookup_cons] at h
      by_cases hak : a = k
      · simp [hak] at h
        simp [hak, h]
      · simp [hak] at h
        exact List.mem_cons_of_mem _ (ih h)

theorem lookup_eq_none_iff {d : List (α × β)} {a : α} :
    d.lookup a = none ↔ a ∉ d.map Prod.fst := by
  induction d with
  | nil => simp [List.lookup]
  | cons hd tl ih =>
      obtain ⟨k, v⟩ := hd
      rw [lookup_cons]
      by_cases hak : a = k <;> simp [hak, ih]

theorem lookup_isSome_iff {d : List (α × β)} {a : α} :
    (d.lookup a).isSome = true ↔ a ∈ d.map Prod.fst := by
  rw [← Decidable.not_iff_not, ← lookup_eq_none_iff]
  cases d.lookup a <;> simp

theorem lookup_append_right {d₁ d₂ : List (α × β)} {a : α}
    (h : a ∉ d₁.map Prod.fst) : (d₁ ++ d₂).lookup a = d₂.lookup a := by
  induction d₁ with
  | nil => rfl
  | cons hd tl ih =>
      obtain ⟨k, v⟩ := hd
      simp only [List.map_cons, List.mem_cons, not_or] at h
      rw [List.cons_append, lookup_cons, if_neg h.1]
      exact ih h.2

theorem lookup_append_left {d₁ d₂ : List (α × β)} {a : α}
    (h : a ∈ d₁.map Prod.fst) : (d₁ ++ d₂).lookup a = d₁.lookup a := by
  induction d₁ with
  | nil => simp at h
  | cons hd tl ih =>
      obtain ⟨k, v⟩ := hd
      by_cases hak : a = k
      · rw [List.cons_append, lookup_cons, lookup_cons, if_pos hak, if_pos hak]
      · simp only [List.map_cons, List.mem_cons, hak, false_or] at h
        rw [List.cons_append, lookup_cons, lookup_cons, if_neg hak, if_neg hak]
        exact ih h

theorem mem_dinsert {d : List (α × β)} {k : α} {v : β} {p : α × β}
    (hp : p ∈ dinsert d k v) : p ∈ d ∨ p = (k, v) := by
  induction d with
  | nil => simpa [dinsert] using hp
  | cons hd tl ih =>
      obtain ⟨k₀, v₀⟩ := hd
      rw [dinsert] at hp
      by_cases hk : k₀ = k
      · rw [if_pos hk] at hp
        rcases List.mem_cons.mp hp with h | h
        · exact Or.inr h
        · exact Or.inl (List.mem_cons_of_mem _ h)
      · rw [if_neg hk] at hp
        rcases List.mem_cons.mp hp with h | h
        · exact Or.inl (h ▸ List.mem_cons_self _ _)
        · rcases ih h with h' | h'
          · exact Or.inl (List.mem_cons_of_mem _ h')
          · exact Or.inr h'

theorem lookup_dinsert (d : List (α × β)) (k : α) (v : β) (a : α) :
    (dinsert d k v).lookup a = if a = k then some v else d.lookup a := by
  induction d with
  | nil => simp only [dinsert, lookup_cons]
  | cons hd tl ih =>
      obtain ⟨k₀, v₀⟩ := hd
      rw [dinsert]
      by_cases hk : k₀ = k
      · subst hk
        rw [if_pos rfl, lookup_cons, lookup_cons]
        by_cases hak : a = k₀ <;> simp [hak]
      · rw [if_neg hk, lookup_cons, lookup_cons, ih]
        by_cases hak : a = k₀ <;> simp [hak, hk]

theorem keys_dinsert_mem {d : List (α × β)} {k : α} {v : β} {a : α} :
    a ∈ (dinsert d k v).map Prod.fst ↔ a ∈ d.map Prod.fst ∨ a = k := by
  rw [← lookup_isSome_iff, ← lookup_isSome_iff, lookup_dinsert]
  by_cases hak : a = k <;> simp [hak]

theorem dinsert_of_not_mem {d : List (α × β)} {k : α} (v : β)
    (h : k ∉ d.map Prod.fst) : dinsert d k v = d ++ [(k, v)] := by
  induction d with
  | nil => rfl
  | cons hd tl ih =>
      obtain ⟨k₀, v₀⟩ := hd
      simp only [List.map_cons, List.mem_cons, not_or] at h
      rw [dinsert, if_neg (fun he => h.1 he.symm), List.cons_append, ih h.2]

theorem nodup_keys_dinsert {d : List (α × β)} {k : α} {v : β}
    (h : (d.map Prod.fst).Nodup) : ((dinsert d k v).map Prod.fst).Nodup := by
  induction d with
  | nil => simp [dinsert]
  | cons hd tl ih =>
      obtain ⟨k₀, v₀⟩ := hd
      simp only [List.map_cons, List.nodup_cons] at h
      rw [dinsert]
      by_cases hk : k₀ = k
      · subst hk
        rw [if_pos (by trivial)]
        simp only [List.map_cons, List.nodup_cons]
        exact h
      · rw [if_neg hk]
        simp only [List.map_cons, List.nodup_cons]
        refine ⟨fun hc => ?_, ih h.2⟩
        rcases keys_dinsert_mem.mp hc with hc' | hc'
        · exact h.1 hc'
        · exact hk hc'

end AListLemmas

/-! ## Filter application (claim C3) -/

theorem dataType_val_beq_empty (dt : DataTypeEnum) : (dt.val == "") = false := by
  cases dt <;> rfl

theorem sex_val_beq_empty (sx : SexEnum) : (sx.val == "") = false := by
  cases sx <;> rfl

theorem ageGroup_val_beq_empty (ag : AgeGroupEnum) : (ag.val == "") = false := by
  cases ag <;> rfl

/-- C3 (amended): `_apply_filters` conjoins the fixed
`cancer_group == "Melanoma of the skin"` predicate with one equality
predicate per field that is set *and truthy* — for `year`, set and
non-zero; the enum-valued fields are always truthy when set — and with
every field unset the match condition is exactly the cancer-group test. -/
theorem apply_filters_characterization (filters : SkinCancerFilter) (r : SkinCancerData) :
    (matchesFilters filters r = true ↔
      (r.cancer_group = "Melanoma of the skin"
       ∧ (∀ dt, filters.data_type = some dt → r.data_type = dt.val)
       ∧ (∀ y, filters.year = some y → y ≠ 0 → r.year = y)
       ∧ (∀ sx, filters.sex = some sx → r.sex = sx.val)
       ∧ (∀ ag, filters.age_group = some ag → r.age_group = ag.val)))
    ∧ matchesFilters filtersNone r = (r.cancer_group == "Melanoma of the skin") := by
  constructor
  · rcases filters with ⟨dt, y, sx, ag⟩
    rcases dt with _ | dt <;> rcases y with _ | y <;> rcases sx with _ | sx <;>
      rcases ag with _ | ag <;>
      first
        | (by_cases hy : y = 0 <;>
            simp [matchesFilters, filterConditions, hy, dataType_val_beq_empty,
              sex_val_beq_empty, ageGroup_val_beq_empty, beq_iff_eq, and_assoc])
        | simp [matchesFilters, filterConditions, dataType_val_beq_empty,
            sex_val_beq_empty, ageGroup_val_beq_empty, beq_iff_eq, and_assoc]
  · simp [matchesFilters, filterConditions, filtersNone]

/-- C3 counterexample: a FilterSpec with `year` set (non-null) to `0` does
not get a year-equality predicate — the record with year 2020 still
matches, while the spec's reading (`specApplyFiltersMatches`, an equality
predicate for every set field) rejects it. -/
theorem apply_filters_truthiness_counterexample :
    filtersYearZero.year = some 0
    ∧ exRecord.year = 2020
    ∧ matchesFilters filtersYearZero exRecord = true
    ∧ specApplyFiltersMatches filtersYearZero exRecord = false :=
  ⟨rfl, rfl, rfl, rfl⟩

/-! ## Weather enrichment: geocoding fallback (claim C7) -/

/-- C7: when the weather fetch succeeds and the reverse-geocode sub-call
raises, `get_weather_data` does not raise and returns a snapshot whose
city, country and formatted-address fields are all the placeholder
`"Unknown"` (coordinates passed through unchanged). -/
theorem weather_geocode_failure_unknown (api_key : String) (lat lon : Int)
    (current geocodeErr now : String) (hkey : api_key ≠ "")
    (hlat : -90 ≤ lat ∧ lat ≤ 90) (hlon : -180 ≤ lon ∧ lon ≤ 180) :
    get_weather_data (some api_key) lat lon (.ok current) (.error geocodeErr) now
      = .ok { location_name := "Unknown", location_address := "Unknown",
              lat := lat, lon := lon, country := "Unknown", city := "Unknown",
              current := current, timestamp := now } := by
  simp [get_weather_data, hkey, dictGet, fallback_location_info, List.lookup]

theorem weather_geocode_failure_unknown_witness :
    get_weather_data (some "key0") 37 144 (.ok "payload") (.error "boom") "t0"
      = .ok { location_name := "Unknown", location_address := "Unknown",
              lat := 37, lon := 144, country := "Unknown", city := "Unknown",
              current := "payload", timestamp := "t0" } :=
  weather_geocode_failure_unknown "key0" 37 144 "payload" "boom" "t0"
    (by decide) (by decide) (by decide)

/-! ## Weather enrichment: persistence-failure suppression (claim C8) -/

/-- C8: when the fetch succeeded and the persistence block (get-or-create
user, get-or-create location, insert temperature record, insert UV record)
raises at any step, the endpoint still returns the fetched snapshot. -/
theorem persistence_failure_suppressed (w : WeatherSnapshot) (db dbAt : DbState)
    (stepUser stepLocation stepTemperature stepUv : DbState → Except String DbState)
    (e : String)
    (hfail : saveWeatherBlock stepUser stepLocation stepTemperature stepUv db
        = .error (e, dbAt)) :
    get_weather (.ok w) db stepUser stepLocation stepTemperature stepUv = .ok (w, dbAt) := by
  simp [get_weather, hfail]

theorem persistence_failure_suppressed_witness :
    get_weather (.ok exSnapshot) exDb okStep okStep (fun _ => .error "db down") okStep
      = .ok (exSnapshot, exDb) :=
  persistence_failure_suppressed exSnapshot exDb exDb okStep okStep
    (fun _ => .error "db down") okStep "db down" rfl

/-! ## Map endpoints: enum validation and display fallback (claim C9) -/

/-- C9 counterexample: a `temp_type` (resp. `period`) outside the fixed
enumeration makes the temperature-map (resp. UV-heatmap) operation fail
with the service's `ValueError` (a 400), instead of succeeding with an
echoed display name. -/
theorem map_url_invalid_enum_counterexample :
    isOkE (get_temperature_map "bogus" "aus" "annual") = false
    ∧ isOkE (get_uv_index_heatmap "bogus") = false :=
  ⟨rfl, rfl⟩

/-- C9 (amended): inputs whose lowercasing is inside the fixed
enumerations succeed, and the display-name fields fall back to echoing the
raw input capitalized (uppercased for region) exactly when the raw input
misses the display maps (e.g. any non-lowercase spelling of a valid
value); inputs outside the enumerations fail instead. -/
theorem map_display_fallback (temp_type region period : String)
    (ht : (temp_type_map.lookup (pyLower temp_type)).isSome = true)
    (hr : temp_regions.contains (pyLower region) = true)
    (hp : (temp_period_map.lookup (pyLower period)).isSome = true) :
    ∃ resp, get_temperature_map temp_type region period = .ok resp
      ∧ resp.temp_type = ((temp_type_display.lookup temp_type).getD (pyCapitalize temp_type))
      ∧ resp.region = ((region_display.lookup region).getD (pyUpper region))
      ∧ resp.period = ((period_display.lookup period).getD (pyCapitalize period)) := by
  obtain ⟨t, ht'⟩ := Option.isSome_iff_exists.mp ht
  obtain ⟨p, hp'⟩ := Option.isSome_iff_exists.mp hp
  have hresp : get_temperature_map temp_type region period = .ok
      { url := "/api/v1/weather/proxy-image" ++ "?url=" ++
          (bom_temp_base_url ++ "/" ++ t ++ "/" ++ pyLower region ++ "/" ++ t ++
            pyLower region ++ p)
        temp_type := (temp_type_display.lookup temp_type).getD (pyCapitalize temp_type)
        region := (region_display.lookup region).getD (pyUpper region)
        period := (period_display.lookup period).getD (pyCapitalize period) } := by
    have hr' : pyLower region ∈ temp_regions := by simpa using hr
    simp [get_temperature_map, get_temperature_map_url, ht', hr', hp']
  exact ⟨_, hresp, rfl, rfl, rfl⟩

theorem map_display_fallback_witness :
    ∃ resp, get_temperature_map "MEAN" "AUS" "Annual" = .ok resp
      ∧ resp.temp_type = ((temp_type_display.lookup "MEAN").getD (pyCapitalize "MEAN"))
      ∧ resp.region = ((region_display.lookup "AUS").getD (pyUpper "AUS"))
      ∧ resp.period = ((period_display.lookup "Annual").getD (pyCapitalize "Annual")) :=
  map_display_fallback "MEAN" "AUS" "Annual" rfl rfl rfl

/-! ## Image-proxy URL normalization (claim C10) -/

/-- C10: the URL actually fetched by `proxy_image` is obtained by
unwrapping one level of nested proxying — when the query string starts
with the proxy path, the URL-decoded suffix after the first `url=` — and
then prefixing `http://` whenever the result lacks an
`http://`/`https://` protocol; a prefixed query string without any `url=`
raises instead. -/
theorem proxy_image_url_normalization (url : String) :
    (strStartsWith url "/api/v1/weather/proxy-image" = true →
       (∀ rest, splitAfterFirst "url=" url = some rest →
          proxy_image_fetch_url url = .ok (addProtocol (unquote rest)))
       ∧ (splitAfterFirst "url=" url = none →
          isOkE (proxy_image_fetch_url url) = false))
    ∧ (strStartsWith url "/api/v1/weather/proxy-image" = false →
        proxy_image_fetch_url url = .ok (addProtocol url)) := by
  constructor
  · intro hpre
    constructor
    · intro rest hrest
      simp only [proxy_image_fetch_url, hpre, hrest, if_true]
      rw [addProtocol]
      split <;> rfl
    · intro hnone
      simp [proxy_image_fetch_url, hpre, hnone, isOkE]
  · intro hpre
    simp only [proxy_image_fetch_url, hpre, Bool.false_eq_true, if_false]
    rw [addProtocol]
    split <;> rfl

theorem proxy_image_url_normalization_witness :
    proxy_image_fetch_url "/api/v1/weather/proxy-image?url=http%3A%2F%2Fwww.bom.gov.au%2Fx.png"
      = .ok (addProtocol (unquote "http%3A%2F%2Fwww.bom.gov.au%2Fx.png"))
    ∧ proxy_image_fetch_url "www.bom.gov.au/x.png"
      = .ok (addProtocol "www.bom.gov.au/x.png") :=
  ⟨((proxy_image_url_normalization
      "/api/v1/weather/proxy-image?url=http%3A%2F%2Fwww.bom.gov.au%2Fx.png").1 rfl).1
      "http%3A%2F%2Fwww.bom.gov.au%2Fx.png" rfl,
   (proxy_image_url_normalization "www.bom.gov.au/x.png").2 rfl⟩

/-! ## Error taxonomy of the formatting step -/

theorem getattrRow_error {row : Row} {n : String} {e : CrudError}
    (h : getattrRow row n = .error e) : e = .attributeError n := by
  unfold getattrRow at h
  cases hl : row.lookup n <;> rw [hl] at h <;> simp_all

theorem buildNameDict_error_attr (row : Row) (ns : List String) :
    ∀ (acc : List (String × Val)) (e : CrudError),
      buildNameDict row ns acc = .error e → ∃ n, e = .attributeError n := by
  induction ns with
  | nil => intro acc e h; simp [buildNameDict] at h
  | cons n ns ih =>
      intro acc e h
      rw [buildNameDict] at h
      cases hg : getattrRow row n with
      | ok v =>
          rw [hg] at h
          exact ih _ _ h
      | error e' =>
          rw [hg] at h
          replace h : (Except.error e' : Except CrudError (List (String × Val)))
              = .error e := h
          cases h
          exact ⟨n, getattrRow_error hg⟩

theorem format1_error_attr (field : String) (metrics : List String) :
    ∀ (rows : List Row) (acc : List (Val × List (String × Val))) (e : CrudError),
      format1 field metrics rows acc = .error e → ∃ n, e = .attributeError n := by
  intro rows
  induction rows with
  | nil => intro acc e h; simp [format1] at h
  | cons row rest ih =>
      intro acc e h
      rw [format1] at h
      cases hg : getattrRow row field with
      | error e' =>
          rw [hg] at h
          replace h : (Except.error e' : Except CrudError (List (Val × List (String × Val))))
              = .error e := h
          cases h
          exact ⟨field, getattrRow_error hg⟩
      | ok key =>
          rw [hg] at h
          cases hm : buildNameDict row metrics [] with
          | error e' =>
              rw [hm] at h
              replace h : (Except.error e' : Except CrudError (List (Val × List (String × Val))))
                  = .error e := h
              cases h
              exact buildNameDict_error_attr row metrics [] _ hm
          | ok md =>
              rw [hm] at h
              exact ih _ _ h

theorem format2_error_attr (field1 field2 : String) (metrics : List String) :
    ∀ (rows : List Row) (acc : List (Val × List (Val × List (String × Val)))) (e : CrudError),
      format2 field1 field2 metrics rows acc = .error e → ∃ n, e = .attributeError n := by
  intro rows
  induction rows with
  | nil => intro acc e h; simp [format2] at h
  | cons row rest ih =>
      intro acc e h
      rw [format2] at h
      cases hg1 : getattrRow row field1 with
      | error e' =>
          rw [hg1] at h
          replace h : (Except.error e' : Except CrudError
              (List (Val × List (Val × List (String × Val))))) = .error e := h
          cases h
          exact ⟨field1, getattrRow_error hg1⟩
      | ok key1 =>
          rw [hg1] at h
          cases hg2 : getattrRow row field2 with
          | error e' =>
              rw [hg2] at h
              replace h : (Except.error e' : Except CrudError
                  (List (Val × List (Val × List (String × Val))))) = .error e := h
              cases h
              exact ⟨field2, getattrRow_error hg2⟩
          | ok key2 =>
              rw [hg2] at h
              cases hm : buildNameDict row metrics [] with
              | error e' =>
                  rw [hm] at h
                  replace h : (Except.error e' : Except CrudError
                      (List (Val × List (Val × List (String × Val))))) = .error e := h
                  cases h
                  exact buildNameDict_error_attr row metrics [] _ hm
              | ok md =>
                  rw [hm] at h
                  exact ih _ _ h

theorem buildItem_error_attr (row : Row) (group_by metrics : List String)
    (e : CrudError) (h : buildItem row group_by metrics = .error e) :
    ∃ n, e = .attributeError n := by
  rw [buildItem] at h
  cases hg : buildNameDict row group_by [] with
  | error e' =>
      rw [hg] at h
      replace h : (Except.error e' : Except CrudError (List (String × Val)))
          = .error e := h
      cases h
      exact buildNameDict_error_attr row group_by [] _ hg
  | ok d =>
      rw [hg] at h
      exact buildNameDict_error_attr row metrics d _ h

theorem formatN_error_attr (group_by metrics : List String) :
    ∀ (rows : List Row) (e : CrudError),
      formatN group_by metrics rows = .error e → ∃ n, e = .attributeError n := by
  intro rows
  induction rows with
  | nil => intro e h; simp [formatN] at h
  | cons row rest ih =>
      intro e h
      rw [formatN] at h
      cases hi : buildItem row group_by metrics with
      | error e' =>
          rw [hi] at h
          replace h : (Except.error e' : Except CrudError (List (List (String × Val))))
              = .error e := h
          cases h
          exact buildItem_error_attr row group_by metrics _ hi
      | ok item =>
          rw [hi] at h
          cases ht : formatN group_by metrics rest with
          | error e' =>
              rw [ht] at h
              replace h : (Except.error e' : Except CrudError (List (List (String × Val))))
                  = .error e := h
              cases h
              exact ih _ ht
          | ok tail =>
              rw [ht] at h
              replace h : (Except.ok (item :: tail) : Except CrudError (List (List (String × Val))))
                  = .error e := h
              cases h

theorem format_grouped_error_attr (rows : List Row) (group_by metrics : List String)
    (e : CrudError) (h : format_grouped_data rows group_by metrics = .error e) :
    ∃ n, e = .attributeError n := by
  rw [format_grouped_data.eq_def] at h
  split at h
  · rename_i field
    cases hf : format1 field metrics rows [] with
    | error e' =>
        rw [hf] at h
        replace h : (Except.error e' : Except CrudError GData) = .error e := h
        cases h
        exact format1_error_attr _ _ _ _ _ hf
    | ok m =>
        rw [hf] at h
        replace h : (Except.ok (GData.oneField field m) : Except CrudError GData)
            = .error e := h
        cases h
  · rename_i field1 field2
    cases hf : format2 field1 field2 metrics rows [] with
    | error e' =>
        rw [hf] at h
        replace h : (Except.error e' : Except CrudError GData) = .error e := h
        cases h
        exact format2_error_attr _ _ _ _ _ _ hf
    | ok m =>
        rw [hf] at h
        replace h : (Except.ok (GData.twoField (field1 ++ "_" ++ field2) m)
            : Except CrudError GData) = .error e := h
        cases h
  · cases hf : formatN group_by metrics rows with
    | error e' =>
        rw [hf] at h
        replace h : (Except.error e' : Except CrudError GData) = .error e := h
        cases h
        exact formatN_error_attr _ _ _ _ hf
    | ok d =>
        rw [hf] at h
        replace h : (Except.ok (GData.manyField d) : Except CrudError GData)
            = .error e := h
        cases h

/-! ## Group-by validation (claim C4) -/

theorem validateGroupBy_idem (group_by : List String) :
    validateGroupBy (validateGroupBy group_by) = validateGroupBy group_by := by
  simp [validateGroupBy, List.filter_filter]

/-- C4: `get_grouped_data` drops invalid group-by names silently (the list
it works with is the order-preserving sublist of valid names, and the call
is unchanged by pre-dropping them), and the `ValueError` is raised exactly
when no valid name remains. -/
theorem grouped_validation_raises_iff (records : List SkinCancerData)
    (filters : SkinCancerFilter) (group_by metrics : List String) :
    ((∃ msg, get_grouped_data records filters group_by metrics
        = .error (.valueError msg)) ↔ validateGroupBy group_by = [])
    ∧ get_grouped_data records filters group_by metrics
        = get_grouped_data records filters (validateGroupBy group_by) metrics
    ∧ (validateGroupBy group_by).Sublist group_by
    ∧ (∀ f ∈ validateGroupBy group_by, valid_fields.contains f = true) := by
  refine ⟨⟨?_, ?_⟩, ?_, ?_, ?_⟩
  · rintro ⟨msg, hmsg⟩
    by_contra hne
    rw [get_grouped_data] at hmsg
    rw [if_neg (by simpa [List.isEmpty_iff] using hne)] at hmsg
    obtain ⟨n, hn⟩ := format_grouped_error_attr _ _ _ _ hmsg
    cases hn
  · intro hempty
    refine ⟨"At least one valid field must be specified for grouping", ?_⟩
    rw [get_grouped_data, if_pos (by simpa [List.isEmpty_iff] using hempty)]
  · simp only [get_grouped_data, validateGroupBy_idem]
  · exact List.filter_sublist _
  · intro f hf
    exact (List.mem_filter.mp hf).2

theorem grouped_validation_raises_iff_witness :
    get_grouped_data exRecords filtersNone ["bogus", "year"] ["count"]
      = get_grouped_data exRecords filtersNone (validateGroupBy ["bogus", "year"]) ["count"]
    ∧ (∃ msg, get_grouped_data exRecords filtersNone ["bogus"] ["count"]
        = .error (.valueError msg)) :=
  ⟨(grouped_validation_raises_iff exRecords filtersNone ["bogus", "year"] ["count"]).2.1,
   (grouped_validation_raises_iff exRecords filtersNone ["bogus"] ["count"]).1.2 rfl⟩

/-! ## Success of the formatting step on well-formed rows -/

theorem getattrRow_ok {row : Row} {n : String} {v : Val}
    (h : row.lookup n = some v) : getattrRow row n = .ok v := by
  unfold getattrRow
  rw [h]

theorem buildNameDict_ok (row : Row) (ns : List String) :
    ∀ acc, (∀ n ∈ ns, (row.lookup n).isSome = true) →
      buildNameDict row ns acc = .ok (buildNameDictP row ns acc) := by
  induction ns with
  | nil => intro acc _; rfl
  | cons n ns ih =>
      intro acc hall
      obtain ⟨v, hv⟩ := Option.isSome_iff_exists.mp (hall n (List.mem_cons_self n ns))
      rw [buildNameDict, buildNameDictP, getattrRow_ok hv, hv]
      exact ih _ (fun m hm => hall m (List.mem_cons_of_mem _ hm))

theorem format1_ok (field : String) (metrics : List String) :
    ∀ (rows : List Row) acc,
      (∀ row ∈ rows, (row.lookup field).isSome = true
        ∧ ∀ n ∈ metrics, (row.lookup n).isSome = true) →
      format1 field metrics rows acc = .ok (format1P field metrics rows acc) := by
  intro rows
  induction rows with
  | nil => intro acc _; rfl
  | cons row rest ih =>
      intro acc hall
      have hrow := hall row (List.mem_cons_self row rest)
      obtain ⟨v, hv⟩ := Option.isSome_iff_exists.mp hrow.1
      rw [format1, format1P, getattrRow_ok hv, hv,
        buildNameDict_ok row metrics [] hrow.2]
      exact ih _ (fun r hr => hall r (List.mem_cons_of_mem _ hr))

theorem format2_ok (field1 field2 : String) (metrics : List String) :
    ∀ (rows : List Row) acc,
      (∀ row ∈ rows, (row.lookup field1).isSome = true
        ∧ (row.lookup field2).isSome = true
        ∧ ∀ n ∈ metrics, (row.lookup n).isSome = true) →
      format2 field1 field2 metrics rows acc
        = .ok (format2P field1 field2 metrics rows acc) := by
  intro rows
  induction rows with
  | nil => intro acc _; rfl
  | cons row rest ih =>
      intro acc hall
      have hrow := hall row (List.mem_cons_self row rest)
      obtain ⟨v1, hv1⟩ := Option.isSome_iff_exists.mp hrow.1
      obtain ⟨v2, hv2⟩ := Option.isSome_iff_exists.mp hrow.2.1
      rw [format2, format2P, getattrRow_ok hv1, getattrRow_ok hv2, hv1, hv2,
        buildNameDict_ok row metrics [] hrow.2.2]
      exact ih _ (fun r hr => hall r (List.mem_cons_of_mem _ hr))

theorem buildItem_ok (row : Row) (group_by metrics : List String)
    (h1 : ∀ n ∈ group_by, (row.lookup n).isSome = true)
    (h2 : ∀ n ∈ metrics, (row.lookup n).isSome = true) :
    buildItem row group_by metrics = .ok (buildItemP row group_by metrics) := by
  rw [buildItem, buildItemP, buildNameDict_ok row group_by [] h1]
  exact buildNameDict_ok row metrics _ h2

theorem formatN_ok (group_by metrics : List String) :
    ∀ (rows : List Row),
      (∀ row ∈ rows, (∀ n ∈ group_by, (row.lookup n).isSome = true)
        ∧ ∀ n ∈ metrics, (row.lookup n).isSome = true) →
      formatN group_by metrics rows
        = .ok (rows.map (fun row => buildItemP row group_by metrics)) := by
  intro rows
  induction rows with
  | nil => intro _; rfl
  | cons row rest ih =>
      intro hall
      have hrow := hall row (List.mem_cons_self row rest)
      rw [formatN, buildItem_ok row group_by metrics hrow.1 hrow.2,
        ih (fun r hr => hall r (List.mem_cons_of_mem _ hr))]
      rfl

/-! ## Entries of built dicts and rows -/

theorem buildNameDictP_entries (row : Row) (ns : List String) :
    ∀ acc kv, kv ∈ buildNameDictP row ns acc → kv ∈ acc ∨ kv.1 ∈ ns := by
  induction ns with
  | nil => intro acc kv hkv; exact Or.inl hkv
  | cons n ns ih =>
      intro acc kv hkv
      rw [buildNameDictP] at hkv
      rcases ih _ _ hkv with h | h
      · rcases mem_dinsert h with h' | h'
        · exact Or.inl h'
        · exact Or.inr (h' ▸ List.mem_cons_self n ns)
      · exact Or.inr (List.mem_cons_of_mem _ h)

theorem zip_map_lookup (r : SkinCancerData) (f : String) :
    ∀ (gb : List String), f ∈ gb →
      (gb.zip (gb.map (fieldVal r))).lookup f = some (fieldVal r f) := by
  intro gb
  induction gb with
  | nil => intro hf; cases hf
  | cons g gs ih =>
      intro hf
      rw [List.map_cons, List.zip_cons_cons, lookup_cons]
      by_cases hfg : f = g
      · subst hfg
        rw [if_pos rfl]
      · rw [if_neg hfg]
        exact ih ((List.mem_cons.mp hf).resolve_left hfg)

theorem mkGroupRow_lookup_field (gb metrics : List String)
    (records : List SkinCancerData) (r : SkinCancerData) (f : String) (hf : f ∈ gb) :
    (mkGroupRow gb metrics records (keyOf gb r)).lookup f = some (fieldVal r f) := by
  rw [mkGroupRow, keyOf, lookup_append_left, zip_map_lookup r f gb hf]
  rw [List.map_fst_zip _ _ (by rw [List.length_map])]
  exact hf

theorem filterMap_count_of_mem (metrics : List String) (c : Int)
    (hm : "count" ∈ metrics) :
    (metrics.filterMap (fun metric =>
        if metric == "count" then some ("count", Val.i c) else none)).lookup "count"
      = some (Val.i c) := by
  induction metrics with
  | nil => cases hm
  | cons m ms ih =>
      rw [List.filterMap_cons]
      by_cases hmc : m = "count"
      · rw [if_pos (by simp [hmc]), lookup_cons, if_pos rfl]
      · rw [if_neg (by simp [hmc])]
        exact ih ((List.mem_cons.mp hm).resolve_left (fun he => hmc he.symm))

theorem filterMap_count_of_not_mem (metrics : List String) (c : Int)
    (hm : "count" ∉ metrics) :
    metrics.filterMap (fun metric =>
        if metric == "count" then some ("count", Val.i c) else none) = [] := by
  induction metrics with
  | nil => rfl
  | cons m ms ih =>
      rw [List.filterMap_cons]
      by_cases hmc : m = "count"
      · exact absurd (hmc ▸ List.mem_cons_self m ms) hm
      · rw [if_neg (by simp [hmc])]
        exact ih (fun h => hm (List.mem_cons_of_mem _ h))

theorem mkGroupRow_lookup_count (gb metrics : List String)
    (records : List SkinCancerData) (k : List Val)
    (hgb : "count" ∉ gb) (hk : k.length = gb.length) (hm : "count" ∈ metrics) :
    (mkGroupRow gb metrics records k).lookup "count"
      = some (Val.i (sumCountsFor gb k records)) := by
  rw [mkGroupRow, lookup_append_right, filterMap_count_of_mem _ _ hm]
  rw [List.map_fst_zip _ _ (by rw [hk])]
  exact hgb

theorem mkGroupRow_entry_names (gb metrics : List String)
    (records : List SkinCancerData) (k : List Val) (kv : String × Val)
    (hkv : kv ∈ mkGroupRow gb metrics records k) :
    kv.1 ∈ gb ∨ (kv.1 = "count" ∧ "count" ∈ metrics) := by
  rw [mkGroupRow] at hkv
  rcases List.mem_append.mp hkv with h | h
  · exact Or.inl (List.of_mem_zip h).1
  · obtain ⟨m, hm, hmv⟩ := List.mem_filterMap.mp h
    by_cases hmc : m = "count"
    · rw [if_pos (by simp [hmc])] at hmv
      cases hmv
      exact Or.inr ⟨rfl, hmc ▸ hm⟩
    · rw [if_neg (by simp [hmc])] at hmv
      cases hmv

theorem mkGroupRow_lookup_none (gb metrics : List String)
    (records : List SkinCancerData) (k : List Val) (n : String)
    (hn1 : n ∉ gb) (hn2 : ¬(n = "count" ∧ "count" ∈ metrics)) :
    (mkGroupRow gb metrics records k).lookup n = none := by
  rw [lookup_eq_none_iff]
  intro hmem
  obtain ⟨kv, hkv, hfst⟩ := List.mem_map.mp hmem
  rcases mkGroupRow_entry_names gb metrics records k kv hkv with h | h
  · exact hn1 (hfst ▸ h)
  · exact hn2 ⟨hfst ▸ h.1, h.2⟩

/-! ## Group keys: first-occurrence order, distinctness, coverage -/

theorem firstKeys_nodup_and_fresh (gb : List String) :
    ∀ (records : List SkinCancerData) (seen : List (List Val)),
      (firstKeys gb records seen).Nodup
      ∧ ∀ k ∈ firstKeys gb records seen, k ∉ seen := by
  intro records
  induction records with
  | nil => intro seen; exact ⟨List.nodup_nil, by intro k hk; cases hk⟩
  | cons r rest ih =>
      intro seen
      rw [firstKeys]
      by_cases hmem : keyOf gb r ∈ seen
      · rw [if_pos hmem]
        exact ih seen
      · rw [if_neg hmem]
        obtain ⟨hnodup, hfresh⟩ := ih (keyOf gb r :: seen)
        refine ⟨List.nodup_cons.mpr ⟨fun hc => ?_, hnodup⟩, ?_⟩
        · exact hfresh _ hc (List.mem_cons_self _ _)
        · intro k hk
          rcases List.mem_cons.mp hk with hk' | hk'
          · exact hk' ▸ hmem
          · intro hks
            exact hfresh k hk' (List.mem_cons_of_mem _ hks)

theorem firstKeys_covers (gb : List String) :
    ∀ (records : List SkinCancerData) (seen : List (List Val)),
      ∀ r ∈ records, keyOf gb r ∈ seen ∨ keyOf gb r ∈ firstKeys gb records seen := by
  intro records
  induction records with
  | nil => intro seen r hr; cases hr
  | cons r0 rest ih =>
      intro seen r hr
      rw [firstKeys]
      by_cases hmem : keyOf gb r0 ∈ seen
      · rw [if_pos hmem]
        rcases List.mem_cons.mp hr with hr' | hr'
        · exact Or.inl (hr' ▸ hmem)
        · exact ih seen r hr'
      · rw [if_neg hmem]
        rcases List.mem_cons.mp hr with hr' | hr'
        · exact Or.inr (hr' ▸ List.mem_cons_self _ _)
        · rcases ih (keyOf gb r0 :: seen) r hr' with h | h
          · rcases List.mem_cons.mp h with h' | h'
            · exact Or.inr (h' ▸ List.mem_cons_self _ _)
            · exact Or.inl h'
          · exact Or.inr (List.mem_cons_of_mem _ h)

theorem firstKeys_from_records (gb : List String) :
    ∀ (records : List SkinCancerData) (seen : List (List Val)),
      ∀ k ∈ firstKeys gb records seen, ∃ r ∈ records, k = keyOf gb r := by
  intro records
  induction records with
  | nil => intro seen k hk; cases hk
  | cons r0 rest ih =>
      intro seen k hk
      rw [firstKeys] at hk
      by_cases hmem : keyOf gb r0 ∈ seen
      · rw [if_pos hmem] at hk
        obtain ⟨r, hr, he⟩ := ih seen k hk
        exact ⟨r, List.mem_cons_of_mem _ hr, he⟩
      · rw [if_neg hmem] at hk
        rcases List.mem_cons.mp hk with hk' | hk'
        · exact ⟨r0, List.mem_cons_self _ _, hk'⟩
        · obtain ⟨r, hr, he⟩ := ih (keyOf gb r0 :: seen) k hk'
          exact ⟨r, List.mem_cons_of_mem _ hr, he⟩

theorem groupKeys_nodup (gb : List String) (records : List SkinCancerData) :
    (groupKeys gb records).Nodup :=
  (firstKeys_nodup_and_fresh gb records []).1

theorem groupKeys_covers (gb : List String) (records : List SkinCancerData) :
    ∀ r ∈ records, keyOf gb r ∈ groupKeys gb records := by
  intro r hr
  rcases firstKeys_covers gb records [] r hr with h | h
  · cases h
  · exact h

theorem groupKeys_from_records (gb : List String) (records : List SkinCancerData) :
    ∀ k ∈ groupKeys gb records, ∃ r ∈ records, k = keyOf gb r :=
  firstKeys_from_records gb records []

theorem keyOf_length (gb : List String) (r : SkinCancerData) :
    (keyOf gb r).length = gb.length := by
  rw [keyOf, List.length_map]

theorem runGroupedQuery_mem (gb metrics : List String)
    (records : List SkinCancerData) (row : Row)
    (hrow : row ∈ runGroupedQuery gb metrics records) :
    ∃ r ∈ records, row = mkGroupRow gb metrics records (keyOf gb r) := by
  rw [runGroupedQuery] at hrow
  obtain ⟨k, hk, he⟩ := List.mem_map.mp hrow
  obtain ⟨r, hr, hke⟩ := groupKeys_from_records gb records k hk
  exact ⟨r, hr, by rw [← he, hke]⟩

theorem valid_field_ne_count {f : String} (hf : f ∈ valid_fields) : f ≠ "count" := by
  intro he
  rw [he] at hf
  simp [valid_fields] at hf

theorem count_not_mem_of_valid {gb : List String}
    (hgb : ∀ f ∈ gb, f ∈ valid_fields) : "count" ∉ gb := by
  intro hc
  exact valid_field_ne_count (hgb _ hc) rfl

/-- Rows of the grouped query carry every group-by column and, when
requested, the summed `count` column. -/
theorem runGroupedQuery_wf_count (gb : List String) (records : List SkinCancerData)
    (hgb : ∀ f ∈ gb, f ∈ valid_fields) :
    ∀ row ∈ runGroupedQuery gb ["count"] records,
      (∀ f ∈ gb, (row.lookup f).isSome = true)
      ∧ (row.lookup "count").isSome = true := by
  intro row hrow
  obtain ⟨r, _, he⟩ := runGroupedQuery_mem gb ["count"] records row hrow
  subst he
  constructor
  · intro f hf
    rw [mkGroupRow_lookup_field gb ["count"] records r f hf]
    rfl
  · rw [mkGroupRow_lookup_count gb ["count"] records (keyOf gb r)
      (count_not_mem_of_valid hgb) (keyOf_length gb r) (List.mem_cons_self _ _)]
    rfl

/-! ## GroupSpec deduplication (claim C6) -/

theorem format2_diag_preserved (f : String) (metrics : List String) :
    ∀ (rows : List Row) acc m,
      (∀ p ∈ acc, ∀ q ∈ p.2, q.1 = p.1) →
      format2 f f metrics rows acc = .ok m →
      ∀ p ∈ m, ∀ q ∈ p.2, q.1 = p.1 := by
  intro rows
  induction rows with
  | nil =>
      intro acc m hinv h
      replace h : (Except.ok acc : Except CrudError _) = .ok m := h
      cases h
      exact hinv
  | cons row rest ih =>
      intro acc m hinv h
      rw [format2] at h
      cases hg : getattrRow row f with
      | error e =>
          rw [hg] at h
          replace h : (Except.error e : Except CrudError
              (List (Val × List (Val × List (String × Val))))) = .ok m := h
          cases h
      | ok key =>
          rw [hg] at h
          cases hmd : buildNameDict row metrics [] with
          | error e =>
              rw [hmd] at h
              replace h : (Except.error e : Except CrudError
                  (List (Val × List (Val × List (String × Val))))) = .ok m := h
              cases h
          | ok md =>
              rw [hmd] at h
              refine ih _ _ ?_ h
              intro p hp q hq
              rcases mem_dinsert hp with hp' | hp'
              · exact hinv p hp' q hq
              · subst hp'
                rcases mem_dinsert hq with hq' | hq'
                · cases hl : acc.lookup key with
                  | none => rw [hl] at hq'; cases hq'
                  | some inner =>
                      rw [hl] at hq'
                      exact hinv (key, inner) (lookup_mem hl) q hq'
                · rw [hq']

/-- C6 counterexample: the validated list is *not* deduplicated —
`["year", "year"]` yields the two-dimensional `"year_year"` shape with the
year value at both nesting levels, not the single-field shape that
`["year"]` yields. -/
theorem groupspec_dedup_counterexample :
    get_grouped_data exRecords filtersNone ["year", "year"] ["count"]
      = .ok (.twoField "year_year" [(.i 2020, [(.i 2020, [("count", .i 5)])])])
    ∧ get_grouped_data exRecords filtersNone ["year"] ["count"]
      = .ok (.oneField "year" [(.i 2020, [("count", .i 5)])])
    ∧ get_grouped_data exRecords filtersNone ["year", "year"] ["count"]
      ≠ get_grouped_data exRecords filtersNone ["year"] ["count"] := by
  refine ⟨rfl, rfl, ?_⟩
  intro h
  rw [show get_grouped_data exRecords filtersNone ["year", "year"] ["count"]
      = .ok (.twoField "year_year" [(.i 2020, [(.i 2020, [("count", .i 5)])])]) from rfl,
    show get_grouped_data exRecords filtersNone ["year"] ["count"]
      = .ok (.oneField "year" [(.i 2020, [("count", .i 5)])]) from rfl] at h
  injection h with h2
  cases h2

/-- C6 (amended): the validated group-by list keeps duplicates (order
preserved), so a list repeating one valid field is grouped by that field's
value but reshaped as two-dimensional, with the same value as outer and
inner key of every bucket. -/
theorem grouped_duplicate_field (records : List SkinCancerData)
    (filters : SkinCancerFilter) (f : String) (hf : valid_fields.contains f = true) :
    validateGroupBy [f, f] = [f, f]
    ∧ ∃ m, get_grouped_data records filters [f, f] ["count"]
        = .ok (.twoField (f ++ "_" ++ f) m)
      ∧ ∀ p ∈ m, ∀ q ∈ p.2, q.1 = p.1 := by
  have hfm : f ∈ valid_fields := by simpa using hf
  have hv : validateGroupBy [f, f] = [f, f] := by
    simp [validateGroupBy, hfm]
  refine ⟨hv, ?_⟩
  have hgb : ∀ g ∈ [f, f], g ∈ valid_fields := by
    intro g hg
    rcases List.mem_cons.mp hg with h | h
    · exact h ▸ hfm
    · rcases List.mem_cons.mp h with h' | h'
      · exact h' ▸ hfm
      · cases h'
  have hwf := runGroupedQuery_wf_count [f, f]
    (records.filter (matchesFilters filters)) hgb
  have hok : format2 f f ["count"]
      (runGroupedQuery [f, f] ["count"] (records.filter (matchesFilters filters))) []
      = .ok (format2P f f ["count"]
        (runGroupedQuery [f, f] ["count"] (records.filter (matchesFilters filters))) []) := by
    apply format2_ok
    intro row hrow
    obtain ⟨h1, h2⟩ := hwf row hrow
    refine ⟨h1 f (List.mem_cons_self _ _), h1 f (List.mem_cons_self _ _), ?_⟩
    intro n hn
    rcases List.mem_cons.mp hn with h | h
    · exact h ▸ h2
    · cases h
  refine ⟨format2P f f ["count"]
      (runGroupedQuery [f, f] ["count"] (records.filter (matchesFilters filters))) [],
    ?_, ?_⟩
  · simp only [get_grouped_data, hv, List.isEmpty_cons, Bool.false_eq_true, if_false,
      format_grouped_data]
    rw [hok]
    rfl
  · exact format2_diag_preserved f ["count"] _ [] _ (by intro p hp; cases hp) hok

theorem grouped_duplicate_field_witness :
    validateGroupBy ["year", "year"] = ["year", "year"]
    ∧ ∃ m, get_grouped_data exRecords filtersNone ["year", "year"] ["count"]
        = .ok (.twoField ("year" ++ "_" ++ "year") m)
      ∧ ∀ p ∈ m, ∀ q ∈ p.2, q.1 = p.1 :=
  grouped_duplicate_field exRecords filtersNone "year" rfl

/-! ## Unrecognized metrics (claim C5): failure and empty-metrics lemmas -/

theorem getattrRow_error_of_none {row : Row} {n : String}
    (h : row.lookup n = none) : getattrRow row n = .error (.attributeError n) := by
  unfold getattrRow
  rw [h]

theorem buildNameDict_error_of_missing (row : Row) (ns : List String) :
    ∀ acc, (∃ m ∈ ns, row.lookup m = none) →
      ∃ n ∈ ns, row.lookup n = none
        ∧ buildNameDict row ns acc = .error (.attributeError n) := by
  induction ns with
  | nil => rintro acc ⟨m, hm, _⟩; cases hm
  | cons n ns ih =>
      rintro acc ⟨m, hm, hnone⟩
      cases hl : row.lookup n with
      | none =>
          refine ⟨n, List.mem_cons_self _ _, hl, ?_⟩
          rw [buildNameDict, getattrRow_error_of_none hl]
          rfl
      | some v =>
          have hmn : m ≠ n := by
            intro he
            rw [he, hl] at hnone
            cases hnone
          have hm' : m ∈ ns := (List.mem_cons.mp hm).resolve_left hmn
          obtain ⟨n', hn', hnone', herr⟩ := ih (dinsert acc n v) ⟨m, hm', hnone⟩
          refine ⟨n', List.mem_cons_of_mem _ hn', hnone', ?_⟩
          rw [buildNameDict, getattrRow_ok hl]
          exact herr

theorem format1_error_of_missing (field : String) (metrics : List String)
    (row : Row) (rows : List Row) (acc : List (Val × List (String × Val)))
    (hfield : (row.lookup field).isSome = true)
    (hmiss : ∃ m ∈ metrics, row.lookup m = none) :
    ∃ n ∈ metrics, row.lookup n = none
      ∧ format1 field metrics (row :: rows) acc = .error (.attributeError n) := by
  obtain ⟨v, hv⟩ := Option.isSome_iff_exists.mp hfield
  obtain ⟨n, hn, hnone, herr⟩ := buildNameDict_error_of_missing row metrics [] hmiss
  refine ⟨n, hn, hnone, ?_⟩
  rw [format1, getattrRow_ok hv, herr]
  rfl

theorem format2_error_of_missing (field1 field2 : String) (metrics : List String)
    (row : Row) (rows : List Row) (acc : List (Val × List (Val × List (String × Val))))
    (hf1 : (row.lookup field1).isSome = true) (hf2 : (row.lookup field2).isSome = true)
    (hmiss : ∃ m ∈ metrics, row.lookup m = none) :
    ∃ n ∈ metrics, row.lookup n = none
      ∧ format2 field1 field2 metrics (row :: rows) acc = .error (.attributeError n) := by
  obtain ⟨v1, hv1⟩ := Option.isSome_iff_exists.mp hf1
  obtain ⟨v2, hv2⟩ := Option.isSome_iff_exists.mp hf2
  obtain ⟨n, hn, hnone, herr⟩ := buildNameDict_error_of_missing row metrics [] hmiss
  refine ⟨n, hn, hnone, ?_⟩
  rw [format2, getattrRow_ok hv1, getattrRow_ok hv2, herr]
  rfl

theorem formatN_error_of_missing (group_by metrics : List String)
    (row : Row) (rows : List Row)
    (hfields : ∀ n ∈ group_by, (row.lookup n).isSome = true)
    (hmiss : ∃ m ∈ metrics, row.lookup m = none) :
    ∃ n ∈ metrics, row.lookup n = none
      ∧ formatN group_by metrics (row :: rows) = .error (.attributeError n) := by
  obtain ⟨n, hn, hnone, herr⟩ :=
    buildNameDict_error_of_missing row metrics (buildNameDictP row group_by []) hmiss
  refine ⟨n, hn, hnone, ?_⟩
  have hstep : formatN group_by metrics (row :: rows) = (do
      let item ← buildNameDict row metrics (buildNameDictP row group_by [])
      let tail ← formatN group_by metrics rows
      pure (item :: tail)) := by
    rw [formatN, buildItem, buildNameDict_ok row group_by [] hfields]
    rfl
  rw [hstep, herr]
  rfl

theorem format1P_empty_metrics (field : String) :
    ∀ (rows : List Row) acc, (∀ p ∈ acc, p.2 = ([] : List (String × Val))) →
      ∀ p ∈ format1P field [] rows acc, p.2 = [] := by
  intro rows
  induction rows with
  | nil => intro acc hinv p hp; exact hinv p hp
  | cons row rest ih =>
      intro acc hinv p hp
      rw [format1P] at hp
      refine ih _ ?_ p hp
      intro p' hp'
      rcases mem_dinsert hp' with h | h
      · exact hinv p' h
      · rw [h]
        rfl

theorem format2P_empty_metrics (field1 field2 : String) :
    ∀ (rows : List Row) acc,
      (∀ p ∈ acc, ∀ q ∈ p.2, q.2 = ([] : List (String × Val))) →
      ∀ p ∈ format2P field1 field2 [] rows acc, ∀ q ∈ p.2, q.2 = [] := by
  intro rows
  induction rows with
  | nil => intro acc hinv p hp; exact hinv p hp
  | cons row rest ih =>
      intro acc hinv p hp
      rw [format2P] at hp
      refine ih _ ?_ p hp
      intro p' hp' q hq
      rcases mem_dinsert hp' with h | h
      · exact hinv p' h q hq
      · subst h
        rcases mem_dinsert hq with h' | h'
        · cases hl : acc.lookup ((row.lookup field1).getD (.s "")) with
          | none => rw [hl] at h'; cases h'
          | some inner =>
              rw [hl] at h'
              exact hinv _ (lookup_mem hl) q h'
        · rw [h']
          rfl

theorem buildItemP_empty_metrics (row : Row) (group_by : List String) :
    ∀ kv ∈ buildItemP row group_by [], kv.1 ∈ group_by := by
  intro kv hkv
  rw [buildItemP, buildNameDictP] at hkv
  rcases buildNameDictP_entries row group_by [] kv hkv with h | h
  · cases h
  · exact h

theorem runGroupedQuery_wf_fields (gb metrics : List String)
    (records : List SkinCancerData) :
    ∀ row ∈ runGroupedQuery gb metrics records,
      ∀ f ∈ gb, (row.lookup f).isSome = true := by
  intro row hrow f hf
  obtain ⟨r, _, he⟩ := runGroupedQuery_mem gb metrics records row hrow
  subst he
  rw [mkGroupRow_lookup_field gb metrics records r f hf]
  rfl

/-- C5 counterexample: with one matching record, requesting the
unrecognized metric `"bogus"` makes `get_grouped_data` fail with an
`AttributeError` (the formatting step reads a column that was never
selected) instead of succeeding without that metric. -/
theorem unrecognized_metric_counterexample :
    get_grouped_data exRecords filtersNone ["year"] ["bogus"]
      = .error (.attributeError "bogus") := rfl

/-- C5 (amended): unrecognized metrics emit no SUM column (result rows
carry only group-by columns plus `"count"` when requested), and an empty
metrics list succeeds with rows carrying only the group-by values; but a
metrics list containing a name that is neither a validated group-by field
nor `"count"` makes the call fail with an `AttributeError` whenever at
least one record matches the filters — it does not succeed. -/
theorem unrecognized_metrics_behavior (records : List SkinCancerData)
    (filters : SkinCancerFilter) (group_by metrics : List String)
    (hgb : validateGroupBy group_by ≠ []) :
    (∀ row ∈ runGroupedQuery (validateGroupBy group_by) metrics
        (records.filter (matchesFilters filters)),
      ∀ kv ∈ row, kv.1 ∈ validateGroupBy group_by
        ∨ (kv.1 = "count" ∧ "count" ∈ metrics))
    ∧ (metrics = [] → ∃ g, get_grouped_data records filters group_by [] = .ok g
        ∧ noMetricEntries (validateGroupBy group_by) g)
    ∧ (∀ m ∈ metrics, m ∉ validateGroupBy group_by → m ≠ "count" →
        records.filter (matchesFilters filters) ≠ [] →
        ∃ n, n ∈ metrics ∧ n ∉ validateGroupBy group_by ∧ n ≠ "count"
          ∧ get_grouped_data records filters group_by metrics
            = .error (.attributeError n)) := by
  have hvalid : ∀ f ∈ validateGroupBy group_by, f ∈ valid_fields := by
    intro f hf
    simpa using (List.mem_filter.mp hf).2
  refine ⟨?_, ?_, ?_⟩
  · intro row hrow kv hkv
    obtain ⟨r, _, he⟩ := runGroupedQuery_mem _ _ _ _ hrow
    subst he
    exact mkGroupRow_entry_names _ _ _ _ kv hkv
  · intro hme
    subst hme
    rcases hsh : validateGroupBy group_by with _ | ⟨f1, _ | ⟨f2, _ | ⟨f3, t⟩⟩⟩
    · exact absurd hsh hgb
    · have hok := format1_ok f1 []
        (runGroupedQuery [f1] [] (records.filter (matchesFilters filters))) []
        (by
          intro row hrow
          exact ⟨runGroupedQuery_wf_fields [f1] [] _ row hrow f1 (List.mem_cons_self _ _),
            by intro n hn; cases hn⟩)
      refine ⟨.oneField f1 (format1P f1 []
        (runGroupedQuery [f1] [] (records.filter (matchesFilters filters))) []), ?_, ?_⟩
      · simp only [get_grouped_data, hsh, List.isEmpty_cons, Bool.false_eq_true,
          if_false, format_grouped_data]
        rw [hok]
        rfl
      · intro p hp
        exact format1P_empty_metrics f1 _ [] (by intro p hp; cases hp) p hp
    · have hok := format2_ok f1 f2 []
        (runGroupedQuery [f1, f2] [] (records.filter (matchesFilters filters))) []
        (by
          intro row hrow
          refine ⟨runGroupedQuery_wf_fields [f1, f2] [] _ row hrow f1 (List.mem_cons_self _ _),
            runGroupedQuery_wf_fields [f1, f2] [] _ row hrow f2
              (List.mem_cons_of_mem _ (List.mem_cons_self _ _)), ?_⟩
          intro n hn
          cases hn)
      refine ⟨.twoField (f1 ++ "_" ++ f2) (format2P f1 f2 []
        (runGroupedQuery [f1, f2] [] (records.filter (matchesFilters filters))) []), ?_, ?_⟩
      · simp only [get_grouped_data, hsh, List.isEmpty_cons, Bool.false_eq_true,
          if_false, format_grouped_data]
        rw [hok]
        rfl
      · intro p hp
        exact format2P_empty_metrics f1 f2 _ [] (by intro p hp; cases hp) p hp
    · have hok := formatN_ok (f1 :: f2 :: f3 :: t) []
        (runGroupedQuery (f1 :: f2 :: f3 :: t) [] (records.filter (matchesFilters filters)))
        (by
          intro row hrow
          refine ⟨fun n hn => runGroupedQuery_wf_fields _ [] _ row hrow n hn, ?_⟩
          intro n hn
          cases hn)
      refine ⟨.manyField ((runGroupedQuery (f1 :: f2 :: f3 :: t) []
          (records.filter (matchesFilters filters))).map
          (fun row => buildItemP row (f1 :: f2 :: f3 :: t) [])), ?_, ?_⟩
      · simp only [get_grouped_data, hsh, List.isEmpty_cons, Bool.false_eq_true,
          if_false, format_grouped_data]
        rw [hok]
        rfl
      · intro item hitem kv hkv
        obtain ⟨row, _, he⟩ := List.mem_map.mp hitem
        subst he
        exact buildItemP_empty_metrics row _ kv hkv
  · intro m hm hmnot hmc hfil
    rcases hfc : records.filter (matchesFilters filters) with _ | ⟨r0, rest⟩
    · exact absurd hfc hfil
    rcases hsh : validateGroupBy group_by with _ | ⟨f1, _ | ⟨f2, _ | ⟨f3, t⟩⟩⟩
    · exact absurd hsh hgb
    · -- one validated field
      have hrows : runGroupedQuery [f1] metrics (records.filter (matchesFilters filters))
          = mkGroupRow [f1] metrics (records.filter (matchesFilters filters))
              (keyOf [f1] r0)
            :: (firstKeys [f1] rest [keyOf [f1] r0]).map
              (mkGroupRow [f1] metrics (records.filter (matchesFilters filters))) := by
        rw [runGroupedQuery, groupKeys, hfc, firstKeys,
          if_neg (List.not_mem_nil _), List.map_cons]
      have hm0 : (mkGroupRow [f1] metrics (records.filter (matchesFilters filters))
          (keyOf [f1] r0)).lookup m = none := by
        apply mkGroupRow_lookup_none
        · rw [← hsh]; exact hmnot
        · rintro ⟨he, _⟩; exact hmc he
      obtain ⟨n, hn, hnone, herr⟩ := format1_error_of_missing f1 metrics _ _ []
        (by rw [mkGroupRow_lookup_field [f1] metrics _ r0 f1 (List.mem_cons_self _ _)]; rfl)
        ⟨m, hm, hm0⟩
      refine ⟨n, hn, ?_, ?_, ?_⟩
      · intro hng
        rw [mkGroupRow_lookup_field [f1] metrics _ r0 n hng] at hnone
        cases hnone
      · intro he
        subst he
        rw [mkGroupRow_lookup_count [f1] metrics _ (keyOf [f1] r0)
          (count_not_mem_of_valid (by rw [← hsh]; exact hvalid))
          (keyOf_length _ _) hn] at hnone
        cases hnone
      · simp only [get_grouped_data, hsh, List.isEmpty_cons, Bool.false_eq_true,
          if_false, format_grouped_data]
        rw [hrows, herr]
        rfl
    · -- two validated fields
      have hrows : runGroupedQuery [f1, f2] metrics (records.filter (matchesFilters filters))
          = mkGroupRow [f1, f2] metrics (records.filter (matchesFilters filters))
              (keyOf [f1, f2] r0)
            :: (firstKeys [f1, f2] rest [keyOf [f1, f2] r0]).map
              (mkGroupRow [f1, f2] metrics (records.filter (matchesFilters filters))) := by
        rw [runGroupedQuery, groupKeys, hfc, firstKeys,
          if_neg (List.not_mem_nil _), List.map_cons]
      have hm0 : (mkGroupRow [f1, f2] metrics (records.filter (matchesFilters filters))
          (keyOf [f1, f2] r0)).lookup m = none := by
        apply mkGroupRow_lookup_none
        · rw [← hsh]; exact hmnot
        · rintro ⟨he, _⟩; exact hmc he
      obtain ⟨n, hn, hnone, herr⟩ := format2_error_of_missing f1 f2 metrics _ _ []
        (by rw [mkGroupRow_lookup_field [f1, f2] metrics _ r0 f1 (List.mem_cons_self _ _)]; rfl)
        (by rw [mkGroupRow_lookup_field [f1, f2] metrics _ r0 f2
            (List.mem_cons_of_mem _ (List.mem_cons_self _ _))]; rfl)
        ⟨m, hm, hm0⟩
      refine ⟨n, hn, ?_, ?_, ?_⟩
      · intro hng
        rw [mkGroupRow_lookup_field [f1, f2] metrics _ r0 n hng] at hnone
        cases hnone
      · intro he
        subst he
        rw [mkGroupRow_lookup_count [f1, f2] metrics _ (keyOf [f1, f2] r0)
          (count_not_mem_of_valid (by rw [← hsh]; exact hvalid))
          (keyOf_length _ _) hn] at hnone
        cases hnone
      · simp only [get_grouped_data, hsh, List.isEmpty_cons, Bool.false_eq_true,
          if_false, format_grouped_data]
        rw [hrows, herr]
        rfl
    · -- three or more validated fields
      have hrows : runGroupedQuery (f1 :: f2 :: f3 :: t) metrics
            (records.filter (matchesFilters filters))
          = mkGroupRow (f1 :: f2 :: f3 :: t) metrics
              (records.filter (matchesFilters filters)) (keyOf (f1 :: f2 :: f3 :: t) r0)
            :: (firstKeys (f1 :: f2 :: f3 :: t) rest [keyOf (f1 :: f2 :: f3 :: t) r0]).map
              (mkGroupRow (f1 :: f2 :: f3 :: t) metrics
                (records.filter (matchesFilters filters))) := by
        rw [runGroupedQuery, groupKeys, hfc, firstKeys,
          if_neg (List.not_mem_nil _), List.map_cons]
      have hm0 : (mkGroupRow (f1 :: f2 :: f3 :: t) metrics
          (records.filter (matchesFilters filters))
          (keyOf (f1 :: f2 :: f3 :: t) r0)).lookup m = none := by
        apply mkGroupRow_lookup_none
        · rw [← hsh]; exact hmnot
        · rintro ⟨he, _⟩; exact hmc he
      obtain ⟨n, hn, hnone, herr⟩ := formatN_error_of_missing (f1 :: f2 :: f3 :: t) metrics _ _
        (by
          intro g hg
          rw [mkGroupRow_lookup_field (f1 :: f2 :: f3 :: t) metrics _ r0 g hg]
          rfl)
        ⟨m, hm, hm0⟩
      refine ⟨n, hn, ?_, ?_, ?_⟩
      · intro hng
        rw [mkGroupRow_lookup_field (f1 :: f2 :: f3 :: t) metrics _ r0 n hng] at hnone
        cases hnone
      · intro he
        subst he
        rw [mkGroupRow_lookup_count (f1 :: f2 :: f3 :: t) metrics _
          (keyOf (f1 :: f2 :: f3 :: t) r0)
          (count_not_mem_of_valid (by rw [← hsh]; exact hvalid))
          (keyOf_length _ _) hn] at hnone
        cases hnone
      · simp only [get_grouped_data, hsh, List.isEmpty_cons, Bool.false_eq_true,
          if_false, format_grouped_data]
        rw [hrows, herr]
        rfl

theorem unrecognized_metrics_behavior_witness :
    (∃ g, get_grouped_data exRecords filtersNone ["year"] [] = .ok g
      ∧ noMetricEntries (validateGroupBy ["year"]) g)
    ∧ (∃ n, n ∈ ["bogus"] ∧ n ∉ validateGroupBy ["year"] ∧ n ≠ "count"
        ∧ get_grouped_data exRecords filtersNone ["year"] ["bogus"]
          = .error (.attributeError n)) :=
  ⟨(unrecognized_metrics_behavior exRecords filtersNone ["year"] []
      (by intro h; cases h)).2.1 rfl,
   (unrecognized_metrics_behavior exRecords filtersNone ["year"] ["bogus"]
      (by intro h; cases h)).2.2 "bogus" (List.mem_cons_self _ _)
      (by intro h; simp [validateGroupBy, valid_fields] at h)
      (by decide)
      (by decide)⟩

/-! ## Totals over nested mappings (claim C1 machinery) -/

theorem total1_append (a b : List (Val × List (String × Val))) :
    total1 (a ++ b) = total1 a + total1 b := by
  rw [total1, total1, total1, List.map_append, List.sum_append]

theorem total1_dinsert_fresh {acc : List (Val × List (String × Val))} {k : Val}
    {md : List (String × Val)} (h : k ∉ acc.map Prod.fst) :
    total1 (dinsert acc k md) = total1 acc + metricCount md := by
  rw [dinsert_of_not_mem md h, total1_append]
  simp [total1]

theorem total2_cons (p : Val × List (Val × List (String × Val)))
    (m : List (Val × List (Val × List (String × Val)))) :
    total2 (p :: m) = total1 p.2 + total2 m := by
  rw [total2, total2, List.map_cons, List.sum_cons]

theorem total2_dinsert_none {acc : List (Val × List (Val × List (String × Val)))}
    {k : Val} {x : List (Val × List (String × Val))} (h : acc.lookup k = none) :
    total2 (dinsert acc k x) = total2 acc + total1 x := by
  rw [dinsert_of_not_mem x (lookup_eq_none_iff.mp h), total2, total2,
    List.map_append, List.sum_append]
  simp [total1]

theorem total2_dinsert_some {k : Val} {inner ext : List (Val × List (String × Val))} :
    ∀ {acc : List (Val × List (Val × List (String × Val)))},
      acc.lookup k = some inner →
      total2 (dinsert acc k (inner ++ ext)) = total2 acc + total1 ext := by
  intro acc
  induction acc with
  | nil => intro h; cases h
  | cons hd tl ih =>
      intro h
      obtain ⟨k0, i0⟩ := hd
      rw [lookup_cons] at h
      by_cases hk : k = k0
      · rw [if_pos hk] at h
        injection h with h
        subst h
        rw [dinsert, if_pos hk.symm, total2_cons, total2_cons, total1_append]
        ring
      · rw [if_neg hk] at h
        rw [dinsert, if_neg (fun he => hk he.symm), total2_cons, total2_cons, ih h]
        ring

/-- Filling the `"count"` metric into any dict makes its metric count the
row's own summed-count value. -/
theorem metricCount_buildNameDictP_count (row : Row) (acc : List (String × Val)) :
    metricCount (buildNameDictP row ["count"] acc) = metricCount row := by
  show metricCount (dinsert acc "count" ((row.lookup "count").getD (.s "")))
      = metricCount row
  rw [metricCount, metricCount, lookup_dinsert, if_pos rfl]
  cases hl : row.lookup "count" with
  | none => rfl
  | some w => cases w <;> rfl

/-- One formatting step of the two-field branch adds exactly the pair
`(key1, key2)` to the reachable pairs. -/
theorem pairMem_step (acc : List (Val × List (Val × List (String × Val))))
    (k1 k2 : Val) (md : List (String × Val)) (v1 v2 : Val) :
    pairMem (dinsert acc k1 (dinsert ((acc.lookup k1).getD []) k2 md)) v1 v2
      ↔ pairMem acc v1 v2 ∨ (v1 = k1 ∧ v2 = k2) := by
  have hsome : ∀ (x : List (Val × List (String × Val))) (y : Val),
      (∃ i, some x = some i ∧ y ∈ i.map Prod.fst) ↔ y ∈ x.map Prod.fst := by
    intro x y
    constructor
    · rintro ⟨i, hi, hv⟩
      injection hi with hi
      exact hi ▸ hv
    · intro hv
      exact ⟨x, rfl, hv⟩
  unfold pairMem
  rw [lookup_dinsert]
  by_cases h1 : v1 = k1
  · subst h1
    rw [if_pos rfl, hsome]
    cases hl : acc.lookup v1 with
    | none =>
        rw [keys_dinsert_mem]
        constructor
        · rintro (h | h)
          · exact absurd h (by simp)
          · exact Or.inr ⟨rfl, h⟩
        · rintro (⟨i, hi, _⟩ | ⟨_, h2⟩)
          · cases hi
          · exact Or.inr h2
    | some inner =>
        rw [hsome, keys_dinsert_mem]
        constructor
        · rintro (h | h)
          · exact Or.inl h
          · exact Or.inr ⟨rfl, h⟩
        · rintro (h | ⟨_, h2⟩)
          · exact Or.inl h
          · exact Or.inr h2
  · rw [if_neg h1]
    constructor
    · exact fun h => Or.inl h
    · rintro (h | ⟨he, _⟩)
      · exact h
      · exact absurd he h1

/-! ## Partition of the summed counts over the group keys -/

theorem sumCountsFor_cons (gb : List String) (k : List Val) (r : SkinCancerData)
    (rest : List SkinCancerData) :
    sumCountsFor gb k (r :: rest)
      = (if keyOf gb r == k then r.count else 0) + sumCountsFor gb k rest := by
  rw [sumCountsFor, sumCountsFor, List.filter_cons]
  by_cases hk : keyOf gb r = k
  · rw [if_pos (by simp [hk]), if_pos (by simp [hk]), List.map_cons, List.sum_cons]
  · rw [if_neg (by simp [hk]), if_neg (by simp [hk]), zero_add]

theorem sum_split_key (gb : List String) (k : List Val) :
    ∀ (rs : List SkinCancerData),
      (rs.map (fun r => r.count)).sum
        = sumCountsFor gb k rs
          + ((rs.filter (fun r => !(keyOf gb r == k))).map (fun r => r.count)).sum := by
  intro rs
  induction rs with
  | nil => simp [sumCountsFor]
  | cons r rest ih =>
      rw [List.map_cons, List.sum_cons, ih, sumCountsFor_cons, List.filter_cons]
      by_cases hk : keyOf gb r = k
      · rw [if_pos (by simp [hk]), if_neg (by simp [hk])]
        ring
      · rw [if_neg (by simp [hk]), if_pos (by simp [hk]), List.map_cons, List.sum_cons]
        ring

theorem sumCountsFor_erase_ne (gb : List String) (k k' : List Val) (hne : k' ≠ k) :
    ∀ (rs : List SkinCancerData),
      sumCountsFor gb k' (rs.filter (fun r => !(keyOf gb r == k)))
        = sumCountsFor gb k' rs := by
  intro rs
  induction rs with
  | nil => rfl
  | cons r rest ih =>
      rw [List.filter_cons]
      by_cases h1 : keyOf gb r = k
      · rw [if_neg (by simp [h1]), ih, sumCountsFor_cons,
          if_neg (by simp [h1]; exact fun he => hne he.symm), zero_add]
      · rw [if_pos (by simp [h1]), sumCountsFor_cons, sumCountsFor_cons, ih]

theorem sum_counts_partition (gb : List String) :
    ∀ (ks : List (List Val)) (rs : List SkinCancerData),
      ks.Nodup → (∀ r ∈ rs, keyOf gb r ∈ ks) →
      (ks.map (fun k => sumCountsFor gb k rs)).sum = (rs.map (fun r => r.count)).sum := by
  intro ks
  induction ks with
  | nil =>
      intro rs _ hcov
      cases rs with
      | nil => rfl
      | cons r rest => exact absurd (hcov r (List.mem_cons_self _ _)) (List.not_mem_nil _)
  | cons k ks ih =>
      intro rs hnd hcov
      rw [List.map_cons, List.sum_cons]
      have hcov' : ∀ r ∈ rs.filter (fun r => !(keyOf gb r == k)), keyOf gb r ∈ ks := by
        intro r hr
        obtain ⟨hrs, hne⟩ := List.mem_filter.mp hr
        have : keyOf gb r ≠ k := by simpa using hne
        exact (List.mem_cons.mp (hcov r hrs)).resolve_left this
      have hmapeq : ks.map (fun k' => sumCountsFor gb k' rs)
          = ks.map (fun k' => sumCountsFor gb k'
              (rs.filter (fun r => !(keyOf gb r == k)))) := by
        apply List.map_congr_left
        intro k' hk'
        have hne : k' ≠ k := fun he => (List.nodup_cons.mp hnd).1 (he ▸ hk')
        exact (sumCountsFor_erase_ne gb k k' hne rs).symm
      rw [hmapeq, ih _ (List.nodup_cons.mp hnd).2 hcov']
      exact (sum_split_key gb k rs).symm

/-! ## Totals of the formatted output -/

theorem format1P_total (field : String) :
    ∀ (rows : List Row) (acc : List (Val × List (String × Val))),
      (∀ row ∈ rows, (row.lookup field).isSome = true) →
      (rows.map (fun row => row.lookup field)).Nodup →
      (∀ row ∈ rows, ∀ v, row.lookup field = some v → v ∉ acc.map Prod.fst) →
      total1 (format1P field ["count"] rows acc)
        = total1 acc + (rows.map metricCount).sum := by
  intro rows
  induction rows with
  | nil => intro acc _ _ _; rw [format1P]; simp
  | cons row rest ih =>
      intro acc hwf hnd hfresh
      obtain ⟨w, hw⟩ := Option.isSome_iff_exists.mp (hwf row (List.mem_cons_self _ _))
      rw [format1P, hw, Option.getD_some]
      have hw' : w ∉ acc.map Prod.fst := hfresh row (List.mem_cons_self _ _) w hw
      have hnd' := hnd
      rw [List.map_cons] at hnd'
      have hheadnot := (List.nodup_cons.mp hnd').1
      rw [hw] at hheadnot
      have hfresh' : ∀ r ∈ rest, ∀ v, r.lookup field = some v →
          v ∉ (dinsert acc w (buildNameDictP row ["count"] [])).map Prod.fst := by
        intro r hr v hv hmem
        rcases keys_dinsert_mem.mp hmem with h | h
        · exact hfresh r (List.mem_cons_of_mem _ hr) v hv h
        · subst h
          exact hheadnot (List.mem_map.mpr ⟨r, hr, hv⟩)
      rw [ih _ (fun r hr => hwf r (List.mem_cons_of_mem _ hr))
          (List.nodup_cons.mp hnd').2 hfresh',
        total1_dinsert_fresh hw', metricCount_buildNameDictP_count,
        List.map_cons, List.sum_cons]
      ring

theorem format2P_total (f1 f2 : String) :
    ∀ (rows : List Row) (acc : List (Val × List (Val × List (String × Val)))),
      (∀ row ∈ rows, (row.lookup f1).isSome = true ∧ (row.lookup f2).isSome = true) →
      (rows.map (fun row => (row.lookup f1, row.lookup f2))).Nodup →
      (∀ row ∈ rows, ∀ v1 v2, row.lookup f1 = some v1 → row.lookup f2 = some v2 →
        ¬ pairMem acc v1 v2) →
      total2 (format2P f1 f2 ["count"] rows acc)
        = total2 acc + (rows.map metricCount).sum := by
  intro rows
  induction rows with
  | nil => intro acc _ _ _; rw [format2P]; simp
  | cons row rest ih =>
      intro acc hwf hnd hfresh
      obtain ⟨w1, hw1⟩ := Option.isSome_iff_exists.mp (hwf row (List.mem_cons_self _ _)).1
      obtain ⟨w2, hw2⟩ := Option.isSome_iff_exists.mp (hwf row (List.mem_cons_self _ _)).2
      simp only [format2P]
      rw [hw1, hw2, Option.getD_some, Option.getD_some]
      have hnd' := hnd
      rw [List.map_cons] at hnd'
      have hheadnot := (List.nodup_cons.mp hnd').1
      rw [hw1, hw2] at hheadnot
      have htot : total2 (dinsert acc w1
            (dinsert ((acc.lookup w1).getD []) w2 (buildNameDictP row ["count"] [])))
          = total2 acc + metricCount (buildNameDictP row ["count"] []) := by
        cases hl : acc.lookup w1 with
        | none =>
            rw [total2_dinsert_none hl]
            simp [total1, dinsert]
        | some inner =>
            have hw2notin : w2 ∉ inner.map Prod.fst := by
              intro hmem
              exact hfresh row (List.mem_cons_self _ _) w1 w2 hw1 hw2 ⟨inner, hl, hmem⟩
            rw [Option.getD_some,
              dinsert_of_not_mem (buildNameDictP row ["count"] []) hw2notin,
              total2_dinsert_some hl]
            simp [total1]
      have hfresh' : ∀ r ∈ rest, ∀ v1 v2, r.lookup f1 = some v1 → r.lookup f2 = some v2 →
          ¬ pairMem (dinsert acc w1
            (dinsert ((acc.lookup w1).getD []) w2 (buildNameDictP row ["count"] []))) v1 v2 := by
        intro r hr v1 v2 hv1 hv2 hpm
        rcases (pairMem_step acc w1 w2 _ v1 v2).mp hpm with h | ⟨he1, he2⟩
        · exact hfresh r (List.mem_cons_of_mem _ hr) v1 v2 hv1 hv2 h
        · subst he1
          subst he2
          exact hheadnot (List.mem_map.mpr ⟨r, hr, by rw [hv1, hv2]⟩)
      rw [ih _ (fun r hr => hwf r (List.mem_cons_of_mem _ hr))
          (List.nodup_cons.mp hnd').2 hfresh',
        htot, metricCount_buildNameDictP_count, List.map_cons, List.sum_cons]
      ring

/-! ## Distinctness of the grouped rows' keys -/

theorem grouped_rows_nodup_one (f : String) (filtered : List SkinCancerData) :
    ((runGroupedQuery [f] ["count"] filtered).map (fun row => row.lookup f)).Nodup := by
  rw [runGroupedQuery, List.map_map]
  refine List.Nodup.map_on ?_ (groupKeys_nodup _ _)
  intro k1 hk1 k2 hk2 he
  obtain ⟨r1, _, he1⟩ := groupKeys_from_records _ _ k1 hk1
  obtain ⟨r2, _, he2⟩ := groupKeys_from_records _ _ k2 hk2
  subst he1
  subst he2
  simp only [Function.comp_apply] at he
  rw [mkGroupRow_lookup_field [f] ["count"] filtered r1 f (List.mem_cons_self _ _),
    mkGroupRow_lookup_field [f] ["count"] filtered r2 f (List.mem_cons_self _ _)] at he
  injection he with he
  show keyOf [f] r1 = keyOf [f] r2
  rw [keyOf, keyOf, List.map_cons, List.map_cons, he, List.map_nil, List.map_nil]

theorem grouped_rows_nodup_two (f1 f2 : String) (filtered : List SkinCancerData) :
    ((runGroupedQuery [f1, f2] ["count"] filtered).map
      (fun row => (row.lookup f1, row.lookup f2))).Nodup := by
  rw [runGroupedQuery, List.map_map]
  refine List.Nodup.map_on ?_ (groupKeys_nodup _ _)
  intro k1 hk1 k2 hk2 he
  obtain ⟨r1, _, he1⟩ := groupKeys_from_records _ _ k1 hk1
  obtain ⟨r2, _, he2⟩ := groupKeys_from_records _ _ k2 hk2
  subst he1
  subst he2
  simp only [Function.comp_apply] at he
  rw [mkGroupRow_lookup_field [f1, f2] ["count"] filtered r1 f1 (List.mem_cons_self _ _),
    mkGroupRow_lookup_field [f1, f2] ["count"] filtered r2 f1 (List.mem_cons_self _ _),
    mkGroupRow_lookup_field [f1, f2] ["count"] filtered r1 f2
      (List.mem_cons_of_mem _ (List.mem_cons_self _ _)),
    mkGroupRow_lookup_field [f1, f2] ["count"] filtered r2 f2
      (List.mem_cons_of_mem _ (List.mem_cons_self _ _)),
    Prod.mk.injEq] at he
  obtain ⟨he1, he2⟩ := he
  injection he1 with he1
  injection he2 with he2
  show keyOf [f1, f2] r1 = keyOf [f1, f2] r2
  rw [keyOf, keyOf, List.map_cons, List.map_cons, List.map_cons, List.map_cons, he1, he2,
    List.map_nil, List.map_nil]

/-- Summing the per-group `count` metric over the grouped rows gives the
sum of the `count` column over the filtered records. -/
theorem grouped_rows_total (gb : List String) (filtered : List SkinCancerData)
    (hvalid : ∀ f ∈ gb, f ∈ valid_fields) :
    ((runGroupedQuery gb ["count"] filtered).map metricCount).sum
      = (filtered.map (fun r => r.count)).sum := by
  rw [runGroupedQuery, List.map_map]
  have hcongr : (groupKeys gb filtered).map (metricCount ∘ mkGroupRow gb ["count"] filtered)
      = (groupKeys gb filtered).map (fun k => sumCountsFor gb k filtered) := by
    apply List.map_congr_left
    intro k hk
    obtain ⟨r, _, he⟩ := groupKeys_from_records _ _ k hk
    simp only [Function.comp_apply]
    rw [metricCount, mkGroupRow_lookup_count gb ["count"] filtered k
      (count_not_mem_of_valid hvalid) (by rw [he, keyOf_length]) (List.mem_cons_self _ _)]
  rw [hcongr]
  exact sum_counts_partition gb _ filtered (groupKeys_nodup _ _) (groupKeys_covers _ _)

/-! ## Sum preservation (claim C1) -/

/-- C1 counterexample: one melanoma record with `count = 5`, no filters,
grouped by year — the grouped result totals 5 (the summed `count` column)
while `count_filtered` returns the row count 1. -/
theorem count_preservation_counterexample :
    exceptTotal (get_grouped_data exRecords filtersNone ["year"] ["count"]) = 5
    ∧ count_filtered exRecords filtersNone = 1
    ∧ exceptTotal (get_grouped_data exRecords filtersNone ["year"] ["count"])
        ≠ (count_filtered exRecords filtersNone : Int) := by
  refine ⟨rfl, rfl, ?_⟩
  intro h
  rw [show exceptTotal (get_grouped_data exRecords filtersNone ["year"] ["count"])
      = 5 from rfl,
    show ((count_filtered exRecords filtersNone : Nat) : Int) = 1 from rfl] at h
  exact absurd h (by decide)

/-- C1 (amended): for every FilterSpec and non-empty validated group-by
list, the total of the summed `count` metric across all groups of
`get_grouped_data` equals the *sum of the `count` column* over the records
matching the FilterSpec — not the matching row count returned by
`count_filtered` (they agree only when every matching record has
`count = 1`). -/
theorem grouped_total_eq_filtered_sum (records : List SkinCancerData)
    (filters : SkinCancerFilter) (group_by : List String)
    (hgb : validateGroupBy group_by ≠ []) :
    ∃ g, get_grouped_data records filters group_by ["count"] = .ok g
      ∧ gdataTotal g
          = ((records.filter (matchesFilters filters)).map (fun r => r.count)).sum := by
  have hvalid : ∀ f ∈ validateGroupBy group_by, f ∈ valid_fields := by
    intro f hf
    simpa using (List.mem_filter.mp hf).2
  rcases hsh : validateGroupBy group_by with _ | ⟨f1, _ | ⟨f2, _ | ⟨f3, t⟩⟩⟩
  · exact absurd hsh hgb
  · have hv1 : ∀ f ∈ [f1], f ∈ valid_fields := by rw [← hsh]; exact hvalid
    have hwf := runGroupedQuery_wf_count [f1]
      (records.filter (matchesFilters filters)) hv1
    have hok := format1_ok f1 ["count"]
      (runGroupedQuery [f1] ["count"] (records.filter (matchesFilters filters))) []
      (by
        intro row hrow
        refine ⟨(hwf row hrow).1 f1 (List.mem_cons_self _ _), ?_⟩
        intro n hn
        rcases List.mem_cons.mp hn with h | h
        · exact h ▸ (hwf row hrow).2
        · cases h)
    refine ⟨.oneField f1 (format1P f1 ["count"]
        (runGroupedQuery [f1] ["count"] (records.filter (matchesFilters filters))) []),
      ?_, ?_⟩
    · simp only [get_grouped_data, hsh, List.isEmpty_cons, Bool.false_eq_true, if_false,
        format_grouped_data]
      rw [hok]
      rfl
    · show total1 _ = _
      rw [format1P_total f1 _ []
          (fun row hrow => (hwf row hrow).1 f1 (List.mem_cons_self _ _))
          (grouped_rows_nodup_one f1 _)
          (by intro row hrow v hv hmem; simp at hmem),
        grouped_rows_total [f1] _ hv1]
      simp [total1]
  · have hv2 : ∀ f ∈ [f1, f2], f ∈ valid_fields := by rw [← hsh]; exact hvalid
    have hwf := runGroupedQuery_wf_count [f1, f2]
      (records.filter (matchesFilters filters)) hv2
    have hok := format2_ok f1 f2 ["count"]
      (runGroupedQuery [f1, f2] ["count"] (records.filter (matchesFilters filters))) []
      (by
        intro row hrow
        refine ⟨(hwf row hrow).1 f1 (List.mem_cons_self _ _),
          (hwf row hrow).1 f2 (List.mem_cons_of_mem _ (List.mem_cons_self _ _)), ?_⟩
        intro n hn
        rcases List.mem_cons.mp hn with h | h
        · exact h ▸ (hwf row hrow).2
        · cases h)
    refine ⟨.twoField (f1 ++ "_" ++ f2) (format2P f1 f2 ["count"]
        (runGroupedQuery [f1, f2] ["count"] (records.filter (matchesFilters filters))) []),
      ?_, ?_⟩
    · simp only [get_grouped_data, hsh, List.isEmpty_cons, Bool.false_eq_true, if_false,
        format_grouped_data]
      rw [hok]
      rfl
    · show total2 _ = _
      rw [format2P_total f1 f2 _ []
          (fun row hrow => ⟨(hwf row hrow).1 f1 (List.mem_cons_self _ _),
            (hwf row hrow).1 f2 (List.mem_cons_of_mem _ (List.mem_cons_self _ _))⟩)
          (grouped_rows_nodup_two f1 f2 _)
          (by rintro row hrow v1 v2 hv1 hv2 ⟨i, hi, _⟩; cases hi),
        grouped_rows_total [f1, f2] _ hv2]
      simp [total2]
  · have hvN : ∀ f ∈ f1 :: f2 :: f3 :: t, f ∈ valid_fields := by rw [← hsh]; exact hvalid
    have hwf := runGroupedQuery_wf_count (f1 :: f2 :: f3 :: t)
      (records.filter (matchesFilters filters)) hvN
    have hok := formatN_ok (f1 :: f2 :: f3 :: t) ["count"]
      (runGroupedQuery (f1 :: f2 :: f3 :: t) ["count"]
        (records.filter (matchesFilters filters)))
      (by
        intro row hrow
        refine ⟨fun n hn => (hwf row hrow).1 n hn, ?_⟩
        intro n hn
        rcases List.mem_cons.mp hn with h | h
        · exact h ▸ (hwf row hrow).2
        · cases h)
    refine ⟨.manyField ((runGroupedQuery (f1 :: f2 :: f3 :: t) ["count"]
        (records.filter (matchesFilters filters))).map
        (fun row => buildItemP row (f1 :: f2 :: f3 :: t) ["count"])), ?_, ?_⟩
    · simp only [get_grouped_data, hsh, List.isEmpty_cons, Bool.false_eq_true, if_false,
        format_grouped_data]
      rw [hok]
      rfl
    · show ((List.map _ _).map metricCount).sum = _
      rw [List.map_map]
      have hcongr : (runGroupedQuery (f1 :: f2 :: f3 :: t) ["count"]
            (records.filter (matchesFilters filters))).map
            (metricCount ∘ fun row => buildItemP row (f1 :: f2 :: f3 :: t) ["count"])
          = (runGroupedQuery (f1 :: f2 :: f3 :: t) ["count"]
            (records.filter (matchesFilters filters))).map metricCount := by
        apply List.map_congr_left
        intro row _
        simp only [Function.comp_apply]
        exact metricCount_buildNameDictP_count row _
      rw [hcongr, grouped_rows_total (f1 :: f2 :: f3 :: t) _ hvN]

theorem grouped_total_eq_filtered_sum_witness :
    ∃ g, get_grouped_data exRecordsTwo filtersNone ["year", "sex"] ["count"] = .ok g
      ∧ gdataTotal g
          = ((exRecordsTwo.filter (matchesFilters filtersNone)).map
              (fun r => r.count)).sum :=
  grouped_total_eq_filtered_sum exRecordsTwo filtersNone ["year", "sex"] (by decide)

/-! ## Key sets of the reshaped output (claim C2) -/

theorem format1P_keys (field : String) (metrics : List String) :
    ∀ (rows : List Row) (acc : List (Val × List (String × Val))),
      (∀ row ∈ rows, (row.lookup field).isSome = true) →
      ∀ v, v ∈ (format1P field metrics rows acc).map Prod.fst
        ↔ v ∈ acc.map Prod.fst ∨ ∃ row, row ∈ rows ∧ row.lookup field = some v := by
  intro rows
  induction rows with
  | nil =>
      intro acc _ v
      rw [format1P]
      simp
  | cons row rest ih =>
      intro acc hwf v
      obtain ⟨w, hw⟩ := Option.isSome_iff_exists.mp (hwf row (List.mem_cons_self _ _))
      rw [format1P, hw, Option.getD_some,
        ih _ (fun r hr => hwf r (List.mem_cons_of_mem _ hr)) v, keys_dinsert_mem]
      constructor
      · rintro ((h | h) | ⟨r, hr, hl⟩)
        · exact Or.inl h
        · exact Or.inr ⟨row, List.mem_cons_self _ _, by rw [hw, h]⟩
        · exact Or.inr ⟨r, List.mem_cons_of_mem _ hr, hl⟩
      · rintro (h | ⟨r, hr, hl⟩)
        · exact Or.inl (Or.inl h)
        · rcases List.mem_cons.mp hr with h' | h'
          · subst h'
            rw [hw] at hl
            injection hl with hl
            exact Or.inl (Or.inr hl.symm)
          · exact Or.inr ⟨r, h', hl⟩

theorem format2P_outer_keys (f1 f2 : String) (metrics : List String) :
    ∀ (rows : List Row) (acc : List (Val × List (Val × List (String × Val)))),
      (∀ row ∈ rows, (row.lookup f1).isSome = true) →
      ∀ v, v ∈ (format2P f1 f2 metrics rows acc).map Prod.fst
        ↔ v ∈ acc.map Prod.fst ∨ ∃ row, row ∈ rows ∧ row.lookup f1 = some v := by
  intro rows
  induction rows with
  | nil =>
      intro acc _ v
      rw [format2P]
      simp
  | cons row rest ih =>
      intro acc hwf v
      obtain ⟨w, hw⟩ := Option.isSome_iff_exists.mp (hwf row (List.mem_cons_self _ _))
      simp only [format2P]
      rw [hw, Option.getD_some,
        ih _ (fun r hr => hwf r (List.mem_cons_of_mem _ hr)) v, keys_dinsert_mem]
      constructor
      · rintro ((h | h) | ⟨r, hr, hl⟩)
        · exact Or.inl h
        · exact Or.inr ⟨row, List.mem_cons_self _ _, by rw [hw, h]⟩
        · exact Or.inr ⟨r, List.mem_cons_of_mem _ hr, hl⟩
      · rintro (h | ⟨r, hr, hl⟩)
        · exact Or.inl (Or.inl h)
        · rcases List.mem_cons.mp hr with h' | h'
          · subst h'
            rw [hw] at hl
            injection hl with hl
            exact Or.inl (Or.inr hl.symm)
          · exact Or.inr ⟨r, h', hl⟩

theorem format2P_pairs (f1 f2 : String) (metrics : List String) :
    ∀ (rows : List Row) (acc : List (Val × List (Val × List (String × Val)))),
      (∀ row ∈ rows, (row.lookup f1).isSome = true ∧ (row.lookup f2).isSome = true) →
      ∀ v1 v2, pairMem (format2P f1 f2 metrics rows acc) v1 v2
        ↔ pairMem acc v1 v2
          ∨ ∃ row, row ∈ rows ∧ row.lookup f1 = some v1 ∧ row.lookup f2 = some v2 := by
  intro rows
  induction rows with
  | nil =>
      intro acc _ v1 v2
      rw [format2P]
      simp
  | cons row rest ih =>
      intro acc hwf v1 v2
      obtain ⟨w1, hw1⟩ := Option.isSome_iff_exists.mp (hwf row (List.mem_cons_self _ _)).1
      obtain ⟨w2, hw2⟩ := Option.isSome_iff_exists.mp (hwf row (List.mem_cons_self _ _)).2
      simp only [format2P]
      rw [hw1, hw2, Option.getD_some, Option.getD_some,
        ih _ (fun r hr => hwf r (List.mem_cons_of_mem _ hr)) v1 v2, pairMem_step]
      constructor
      · rintro ((h | ⟨he1, he2⟩) | ⟨r, hr, hl1, hl2⟩)
        · exact Or.inl h
        · exact Or.inr ⟨row, List.mem_cons_self _ _, by rw [hw1, he1], by rw [hw2, he2]⟩
        · exact Or.inr ⟨r, List.mem_cons_of_mem _ hr, hl1, hl2⟩
      · rintro (h | ⟨r, hr, hl1, hl2⟩)
        · exact Or.inl (Or.inl h)
        · rcases List.mem_cons.mp hr with h' | h'
          · subst h'
            rw [hw1] at hl1
            rw [hw2] at hl2
            injection hl1 with hl1
            injection hl2 with hl2
            exact Or.inl (Or.inr ⟨hl1.symm, hl2.symm⟩)
          · exact Or.inr ⟨r, h', hl1, hl2⟩

/-- C2: the reshaping step is a pure function of (rows, validated
group_by, metrics) whose shape depends on the group-by length: one field
gives the `{field: {value: {metric: number}}}` mapping, two fields the
`{"f1_f2": {v1: {v2: {metric: number}}}}` mapping, more than two the
`{"data": [flat records]}` list preserving row order; and for one and two
fields the nested mapping's key sets are exactly the distinct values
occurring in the rows (absent buckets omitted). -/
theorem format_grouped_shapes (rows : List Row) (group_by metrics : List String)
    (hwf : wellFormedRows rows (group_by ++ metrics) = true) :
    (∀ f, group_by = [f] →
      ∃ m, format_grouped_data rows group_by metrics = .ok (.oneField f m)
        ∧ ∀ v, v ∈ m.map Prod.fst ↔ ∃ row, row ∈ rows ∧ row.lookup f = some v)
    ∧ (∀ f1 f2, group_by = [f1, f2] →
      ∃ m, format_grouped_data rows group_by metrics
          = .ok (.twoField (f1 ++ "_" ++ f2) m)
        ∧ (∀ v1, v1 ∈ m.map Prod.fst ↔ ∃ row, row ∈ rows ∧ row.lookup f1 = some v1)
        ∧ (∀ v1 v2, pairMem m v1 v2
            ↔ ∃ row, row ∈ rows ∧ row.lookup f1 = some v1 ∧ row.lookup f2 = some v2))
    ∧ (2 < group_by.length →
        format_grouped_data rows group_by metrics
          = .ok (.manyField (rows.map (fun row => buildItemP row group_by metrics)))) := by
  simp only [wellFormedRows, rowHasAll, List.all_eq_true] at hwf
  refine ⟨?_, ?_, ?_⟩
  · intro f hf
    subst hf
    have hok := format1_ok f metrics rows [] (fun row hrow =>
      ⟨hwf row hrow f (List.mem_append_left _ (List.mem_cons_self _ _)),
       fun n hn => hwf row hrow n (List.mem_append_right _ hn)⟩)
    refine ⟨format1P f metrics rows [], ?_, ?_⟩
    · rw [format_grouped_data, hok]
      rfl
    · intro v
      rw [format1P_keys f metrics rows []
        (fun row hrow => hwf row hrow f (List.mem_append_left _ (List.mem_cons_self _ _))) v]
      simp
  · intro f1 f2 hf
    subst hf
    have hok := format2_ok f1 f2 metrics rows [] (fun row hrow =>
      ⟨hwf row hrow f1 (List.mem_append_left _ (List.mem_cons_self _ _)),
       hwf row hrow f2 (List.mem_append_left _
         (List.mem_cons_of_mem _ (List.mem_cons_self _ _))),
       fun n hn => hwf row hrow n (List.mem_append_right _ hn)⟩)
    refine ⟨format2P f1 f2 metrics rows [], ?_, ?_, ?_⟩
    · rw [format_grouped_data, hok]
      rfl
    · intro v1
      rw [format2P_outer_keys f1 f2 metrics rows []
        (fun row hrow => hwf row hrow f1 (List.mem_append_left _ (List.mem_cons_self _ _))) v1]
      simp
    · intro v1 v2
      rw [format2P_pairs f1 f2 metrics rows []
        (fun row hrow =>
          ⟨hwf row hrow f1 (List.mem_append_left _ (List.mem_cons_self _ _)),
           hwf row hrow f2 (List.mem_append_left _
             (List.mem_cons_of_mem _ (List.mem_cons_self _ _)))⟩) v1 v2]
      constructor
      · rintro (⟨i, hi, _⟩ | h)
        · cases hi
        · exact h
      · exact fun h => Or.inr h
  · intro hlen
    rcases group_by with _ | ⟨g1, _ | ⟨g2, _ | ⟨g3, t⟩⟩⟩
    · simp at hlen
    · simp at hlen
    · simp at hlen
    · have hokN := formatN_ok (g1 :: g2 :: g3 :: t) metrics rows (fun row hrow =>
        ⟨fun n hn => hwf row hrow n (List.mem_append_left _ hn),
         fun n hn => hwf row hrow n (List.mem_append_right _ hn)⟩)
      have hdef : format_grouped_data rows (g1 :: g2 :: g3 :: t) metrics = (do
          let d ← formatN (g1 :: g2 :: g3 :: t) metrics rows
          return GData.manyField d) := rfl
      rw [hdef, hokN]
      rfl

theorem format_grouped_shapes_witness :
    ∃ m, format_grouped_data exRows2 ["year", "sex"] ["count"]
        = .ok (.twoField ("year" ++ "_" ++ "sex") m)
      ∧ (∀ v1, v1 ∈ m.map Prod.fst
          ↔ ∃ row, row ∈ exRows2 ∧ row.lookup "year" = some v1)
      ∧ (∀ v1 v2, pairMem m v1 v2
          ↔ ∃ row, row ∈ exRows2 ∧ row.lookup "year" = some v1
            ∧ row.lookup "sex" = some v2) :=
  (format_grouped_shapes exRows2 ["year", "sex"] ["count"] (by decide)).2.1 "year" "sex" rfl

end Onboarding
